import Mathlib

/-!
# HID++ transaction engine of `hid-logitech-hidpp.c`

A shallow embedding of the request builders, the synchronous transaction
(`hidpp_send_message_sync`), the inbound dispatch (`hidpp_raw_event`,
`hidpp_raw_hidpp_event`, `hidpp_raw_dj_event`), the root feature helpers
(`hidpp_root_get_feature`, `hidpp_root_get_protocol_version`), the deferred
initialisation (`schedule_delayed_hidpp_init`, `hidpp_delayed_init`,
`delayed_work_cb`) and the touch decoder (`hidpp_touchpad_touch_event`,
`hidpp_touchpad_raw_xy_event`).

Conventions of the embedding:

* a `u8` is a `Nat`; where the source computes with a byte and stores the
  result in a `u8`, the result is cut with `% 256`;
* an `int` is an `Int`;
* a `u8 *` that is read through a cast (`data`) is the memory behind the
  pointer, a function from byte offset to byte;
* the session `struct hidpp_device` is passed explicitly; a function returns
  its C return value together with the new session;
* calls that leave the file (`hid_hw_request`, the hooks `raw_event` and
  `device_init`, the probes of `driver_lock`) are recorded in logs kept in the
  session, so that "was not transmitted", "was not forwarded" and "was not
  called" are statements about those logs.
-/

namespace Hidpp

/-! ## Constants -/

/-- Constants of `hid-logitech-hidpp.h` and `hid-logitech-dj.h` whose values the
source file does not fix. They are a parameter of every definition that uses
them. -/
structure hidpp_consts where
  REPORT_ID_HIDPP_SHORT : Nat
  REPORT_ID_HIDPP_LONG : Nat
  REPORT_ID_DJ_SHORT : Nat
  REPORT_ID_DJ_LONG : Nat
  HIDPP_ERROR : Nat
  REPORT_TYPE_NOTIF_CONNECTION_STATUS : Nat
  CONNECTION_STATUS_PARAM_STATUS : Nat
  STATUS_LINKLOSS : Nat
  CMD_ROOT_GET_FEATURE : Nat
  CMD_ROOT_GET_PROTOCOL_VERSION : Nat
  deriving DecidableEq, Repr

/-- The four `case` labels of the `switch` in `hidpp_raw_event` are pairwise
distinct (C rejects a `switch` with a repeated label). -/
def hidpp_consts.case_labels_distinct (c : hidpp_consts) : Prop :=
  c.REPORT_ID_DJ_LONG ≠ c.REPORT_ID_DJ_SHORT ∧
  c.REPORT_ID_DJ_LONG ≠ c.REPORT_ID_HIDPP_LONG ∧
  c.REPORT_ID_DJ_LONG ≠ c.REPORT_ID_HIDPP_SHORT ∧
  c.REPORT_ID_DJ_SHORT ≠ c.REPORT_ID_HIDPP_LONG ∧
  c.REPORT_ID_DJ_SHORT ≠ c.REPORT_ID_HIDPP_SHORT ∧
  c.REPORT_ID_HIDPP_LONG ≠ c.REPORT_ID_HIDPP_SHORT

instance (c : hidpp_consts) : Decidable c.case_labels_distinct :=
  inferInstanceAs (Decidable (_ ∧ _))

/-- The values the HID++ and DJ protocols give these constants (HID++ short
and long report ids 0x10 and 0x11, DJ report ids 0x20 and 0x21, HID++ 1.0
error sub-id 0x8f). Used for concrete evaluations only. -/
def hidpp_h : hidpp_consts where
  REPORT_ID_HIDPP_SHORT := 0x10
  REPORT_ID_HIDPP_LONG := 0x11
  REPORT_ID_DJ_SHORT := 0x20
  REPORT_ID_DJ_LONG := 0x21
  HIDPP_ERROR := 0x8f
  REPORT_TYPE_NOTIF_CONNECTION_STATUS := 0x42
  CONNECTION_STATUS_PARAM_STATUS := 0x00
  STATUS_LINKLOSS := 0x01
  CMD_ROOT_GET_FEATURE := 0x01
  CMD_ROOT_GET_PROTOCOL_VERSION := 0x11

/-- Modelled from the spec: `HIDPP_REPORT_SHORT_LENGTH` of the missing header
`hid-logitech-hidpp.h`; a short report is 7 bytes in total. -/
def HIDPP_REPORT_SHORT_LENGTH : Nat := 7

/-- Modelled from the spec: `HIDPP_REPORT_LONG_LENGTH` of the missing header
`hid-logitech-hidpp.h`; a long report is 20 bytes in total. -/
def HIDPP_REPORT_LONG_LENGTH : Nat := 20

/-- Modelled from the spec: `HIDPP_PAGE_ROOT` of the missing header
`hid-logitech-hidpp.h`; the root feature is feature 0x0000 and has index 0. -/
def HIDPP_PAGE_ROOT : Nat := 0

/-- Linux errno `ENODEV`. -/
def ENODEV : Int := 19

/-- Linux errno `EINVAL`. -/
def EINVAL : Int := 22

/-- `MAX_INIT_RETRY` (line 40). -/
def MAX_INIT_RETRY : Int := 5

/-- `enum delayed_work_type { HIDPP_INIT = 0 }` (lines 42-44). -/
def HIDPP_INIT : Nat := 0

/-! ## Reports -/

/-- Modelled from the spec: `sizeof(message.rap.params)`, the size of the array
`params` that the missing header declares in `struct fap` and `struct rap`: the
long report length minus report id, device index and the two header bytes
(source line 510 reads `HIDPP_REPORT_LONG_LENGTH - 4` parameter bytes from a
long response). -/
def PARAMS_SIZE : Nat := HIDPP_REPORT_LONG_LENGTH - 4

/-- Modelled from the spec: `struct fap` of the missing header: feature index,
function index and client id, then the parameter bytes. `struct rap` has the
same layout (`sub_id`, `reg_address`, `params`) and shares the storage through
the union of `struct hidpp_report`. -/
structure fap where
  feature_index : Nat
  funcindex_clientid : Nat
  params : Fin PARAMS_SIZE → Nat

/-- Modelled from the spec: `struct hidpp_report` of the missing header: report
id, device index and the union of the feature-access view, the register-access
view and the raw bytes. -/
structure hidpp_report where
  report_id : Nat
  device_index : Nat
  fap : fap

/-- Register-access view of the union: `rap.sub_id` is the byte of
`fap.feature_index`. -/
def hidpp_report.rap_sub_id (r : hidpp_report) : Nat := r.fap.feature_index

/-- Register-access view of the union: `rap.reg_address` is the byte of
`fap.funcindex_clientid`. -/
def hidpp_report.rap_reg_address (r : hidpp_report) : Nat := r.fap.funcindex_clientid

/-- Register-access view of the union: `rap.params` is `fap.params`. -/
def hidpp_report.rap_params (r : hidpp_report) : Fin PARAMS_SIZE → Nat := r.fap.params

/-- Result of `memset(&r, 0, sizeof(struct hidpp_report))`. -/
def hidpp_report.zero : hidpp_report where
  report_id := 0
  device_index := 0
  fap := { feature_index := 0, funcindex_clientid := 0, params := fun _ => 0 }

/-- The cast `(struct hidpp_report *)data`: the packed structure read from the
memory behind `data`. -/
def hidpp_report.at_data (data : Nat → Nat) : hidpp_report where
  report_id := data 0
  device_index := data 1
  fap := { feature_index := data 2, funcindex_clientid := data 3,
           params := fun i => data (4 + i.val) }

/-- Conversion of an `int` to `size_t` (64-bit), as done by the comparison
`param_count > sizeof(...)` and by the length argument of `memcpy`. -/
def size_t_of_int (n : Int) : Nat := (n % (2 : Int) ^ 64).toNat

/-- The bytes `memcpy(&message.fap.params, params, param_count)` leaves in the
parameter area: the first `n` bytes come from `params`, the others are kept. -/
def memcpy_params (old : Fin PARAMS_SIZE → Nat) (params : List Nat) (n : Nat) :
    Fin PARAMS_SIZE → Nat :=
  fun i => if i.val < n then params.getD i.val 0 else old i

/-! ## Session -/

/-- One inbound frame as handed to `hidpp_raw_event`: the memory behind `data`
and the reported `size`. -/
structure inbound_frame where
  data : Nat → Nat
  size : Int

/-- What `hidpp_delayed_init` does outside the session, in the order it does it:
a probe of `hid_dev->driver_lock` that finds it held, a probe that takes it,
its release with `up`, and a call of the hook `device_init`. -/
inductive init_event where
  | trylock_busy
  | trylock_taken
  | lock_up
  | device_init_call
  deriving DecidableEq, Repr

/-- The fields of `struct hidpp_device` the functions below use, with the
buffer `send_receive_buf` points to held by value, the external hooks as
oracles for their return value, and logs of the calls that leave the file. -/
structure hidpp_device where
  /-- Field `initialized`. -/
  initialized : Bool
  /-- Field `init_retry`. -/
  init_retry : Int
  /-- Content of `delayed_work_fifo`, oldest item first. -/
  delayed_work_fifo : List Nat
  /-- Number of items `delayed_work_fifo` holds at most. -/
  delayed_work_fifo_size : Nat
  /-- Whether `work` is queued (`schedule_work` was called and the callback
  has not started). -/
  work_pending : Bool
  /-- Whether `send_mutex` is held. -/
  send_mutex : Bool
  /-- The report `send_receive_buf` points to, which is the caller's `response`. -/
  send_receive_buf : hidpp_report
  /-- Field `answer_available`. -/
  answer_available : Bool
  /-- The hook `raw_event`, `none` for `NULL`; the function gives the hook's
  return value for `data` and `size`. -/
  raw_event : Option ((Nat → Nat) → Int → Int)
  /-- Log of the invocations of the hook `raw_event`. -/
  raw_event_calls : List inbound_frame
  /-- Log of the reports handed to `hid_hw_request`. -/
  hid_hw_requests : List hidpp_report
  /-- Whether the semaphore `hid_dev->driver_lock` is held, by this driver or
  by another user of the device. -/
  driver_lock : Bool
  /-- The hook `device_init`, `none` for `NULL`; the value is what the routine
  returns. -/
  device_init : Option Int
  /-- Log of the lock probes, lock releases and `device_init` calls. -/
  init_trace : List init_event

/-! ## Sending -/

/-- Source lines 46-66: refuse a report id that is neither short nor long with
`-ENODEV`; otherwise load the `sizeof(struct fap)` raw bytes of the report into
the output report and hand it to `hid_hw_request`. -/
def __hidpp_send_report (c : hidpp_consts) (dev : hidpp_device)
    (hidpp_report : hidpp_report) : Int × hidpp_device :=
  if hidpp_report.report_id ≠ c.REPORT_ID_HIDPP_SHORT ∧
     hidpp_report.report_id ≠ c.REPORT_ID_HIDPP_LONG then
    (-ENODEV, dev)
  else
    (0, { dev with hid_hw_requests := dev.hid_hw_requests ++ [hidpp_report] })

/-! ## Deferred initialisation trigger -/

/-- Library call `kfifo_in` for one work item: the item is appended when the
fifo has room for it and dropped otherwise. -/
def kfifo_in (dev : hidpp_device) (work_type : Nat) : hidpp_device :=
  if dev.delayed_work_fifo.length < dev.delayed_work_fifo_size then
    { dev with delayed_work_fifo := dev.delayed_work_fifo ++ [work_type] }
  else dev

/-- Library call `schedule_work`: queue `work` unless it is queued already;
the result is 0 when it was queued already. -/
def schedule_work (dev : hidpp_device) : Int × hidpp_device :=
  if dev.work_pending then (0, dev) else (1, { dev with work_pending := true })

/-- Source lines 155-170. -/
def schedule_delayed_hidpp_init (dev : hidpp_device) : hidpp_device :=
  if dev.initialized then dev
  else
    let dev := kfifo_in dev HIDPP_INIT
    (schedule_work dev).2

/-! ## Inbound dispatch -/

/-- The cast `(struct dj_report *)data`, field `report_id`. -/
def dj_report_id (data : Nat → Nat) : Nat := data 0

/-- The cast `(struct dj_report *)data`, field `report_type`. -/
def dj_report_type (data : Nat → Nat) : Nat := data 2

/-- The cast `(struct dj_report *)data`, field `report_params[i]`. -/
def dj_report_params (data : Nat → Nat) (i : Nat) : Nat := data (3 + i)

/-- Source lines 289-301. -/
def hidpp_raw_dj_event (c : hidpp_consts) (dev : hidpp_device) (data : Nat → Nat) :
    Int × hidpp_device :=
  if dj_report_id data = c.REPORT_ID_DJ_SHORT ∧
     dj_report_type data = c.REPORT_TYPE_NOTIF_CONNECTION_STATUS then
    let connection_status := dj_report_params data c.CONNECTION_STATUS_PARAM_STATUS
    if connection_status ≠ c.STATUS_LINKLOSS then
      (0, schedule_delayed_hidpp_init dev)
    else (0, dev)
  else (0, dev)

/-- The test `correct_answer` of source lines 315-325: the report carries the
feature index and function byte of the question, or it is a HID++ 1.0 error
report that echoes both. -/
def correct_answer (c : hidpp_consts) (report question : hidpp_report) : Prop :=
  (report.fap.feature_index = question.fap.feature_index ∧
   report.fap.funcindex_clientid = question.fap.funcindex_clientid) ∨
  (report.fap.feature_index = c.HIDPP_ERROR ∧
   report.fap.funcindex_clientid = question.fap.feature_index ∧
   report.fap.params ⟨0, by decide⟩ = question.fap.funcindex_clientid)

instance (c : hidpp_consts) (report question : hidpp_report) :
    Decidable (correct_answer c report question) :=
  inferInstanceAs (Decidable (_ ∨ _))

/-- Source lines 339-342: hand the report to the hook `raw_event` when one is
installed, else return 0. -/
def forward_raw_event (dev : hidpp_device) (data : Nat → Nat) (size : Int) :
    Int × hidpp_device :=
  match dev.raw_event with
  | some handler =>
    (handler data size,
     { dev with raw_event_calls := dev.raw_event_calls ++ [{ data := data, size := size }] })
  | none => (0, dev)

/-- Source lines 303-343. -/
def hidpp_raw_hidpp_event (c : hidpp_consts) (dev : hidpp_device) (data : Nat → Nat)
    (size : Int) : Int × hidpp_device :=
  let question := dev.send_receive_buf
  let report := hidpp_report.at_data data
  if dev.send_mutex = true ∧ correct_answer c report question then
    (1, { dev with send_receive_buf := report, answer_available := true })
  else
    forward_raw_event dev data size

/-- Source lines 345-375. -/
def hidpp_raw_event (c : hidpp_consts) (dev : hidpp_device) (data : Nat → Nat)
    (size : Int) : Int × hidpp_device :=
  let len : Int := (size >>> (3 : Nat)) + 1
  if data 0 = c.REPORT_ID_DJ_LONG ∨ data 0 = c.REPORT_ID_DJ_SHORT then
    hidpp_raw_dj_event c dev data
  else if data 0 = c.REPORT_ID_HIDPP_LONG then
    if len ≠ HIDPP_REPORT_LONG_LENGTH then (1, dev)
    else hidpp_raw_hidpp_event c dev data size
  else if data 0 = c.REPORT_ID_HIDPP_SHORT then
    if len ≠ HIDPP_REPORT_SHORT_LENGTH then (1, dev)
    else hidpp_raw_hidpp_event c dev data size
  else
    forward_raw_event dev data size

/-! ## Synchronous transaction -/

/-- The frames delivered to `hidpp_raw_event` while the caller of
`hidpp_send_message_sync` is blocked in `wait_event_timeout`, in order of
arrival. -/
def deliver (c : hidpp_consts) (dev : hidpp_device) : List inbound_frame → hidpp_device
  | [] => dev
  | f :: rest => deliver c (hidpp_raw_event c dev f.data f.size).2 rest

/-- Kernel call `wait_event_timeout(wait, answer_available, 10*HZ)` of source
line 91: the caller is blocked while the frames `inbound` are delivered, which
are all the frames that arrive before the caller runs again (a frame may still
arrive between `wake_up` and that moment); the result is false (the C value 0,
a timeout) when `answer_available` is still false after them. -/
def wait_event_timeout (c : hidpp_consts) (dev : hidpp_device)
    (inbound : List inbound_frame) : Bool × hidpp_device :=
  let dev := deliver c dev inbound
  (dev.answer_available, dev)

/-- Source lines 68-109. `inbound` lists the frames that arrive while the
caller is blocked in the wait. The caller's `response` is `send_receive_buf`
of the session returned. -/
def hidpp_send_message_sync (c : hidpp_consts) (dev : hidpp_device)
    (message : hidpp_report) (inbound : List inbound_frame) : Int × hidpp_device :=
  let dev := { dev with send_mutex := true }
  let dev := { dev with answer_available := false }
  let dev := { dev with send_receive_buf := message }
  let (ret, dev) := __hidpp_send_report c dev message
  if ret ≠ 0 then
    let dev := { dev with send_receive_buf := hidpp_report.zero }
    (ret, { dev with send_mutex := false })
  else
    let (woken, dev) := wait_event_timeout c dev inbound
    let (ret, dev) :=
      if woken = false then
        ((-1 : Int), { dev with send_receive_buf := hidpp_report.zero })
      else (ret, dev)
    let response := dev.send_receive_buf
    if response.report_id = c.REPORT_ID_HIDPP_SHORT ∧
       response.fap.feature_index = c.HIDPP_ERROR then
      ((response.fap.params ⟨0, by decide⟩ : Int), { dev with send_mutex := false })
    else
      (ret, { dev with send_mutex := false })

/-- The message of source lines 120-124. -/
def fap_message (c : hidpp_consts) (feat_index funcindex_clientid : Nat)
    (params : List Nat) (param_count : Int) : hidpp_report :=
  let message := hidpp_report.zero
  let message := { message with report_id := c.REPORT_ID_HIDPP_LONG }
  let message := { message with fap := { message.fap with feature_index := feat_index } }
  let message :=
    { message with fap := { message.fap with funcindex_clientid := funcindex_clientid } }
  { message with fap := { message.fap with
      params := memcpy_params message.fap.params params (size_t_of_int param_count) } }

/-- Source lines 111-127. -/
def hidpp_send_fap_command_sync (c : hidpp_consts) (dev : hidpp_device)
    (feat_index funcindex_clientid : Nat) (params : List Nat) (param_count : Int)
    (inbound : List inbound_frame) : Int × hidpp_device :=
  if size_t_of_int param_count > PARAMS_SIZE then (-EINVAL, dev)
  else
    hidpp_send_message_sync c dev
      (fap_message c feat_index funcindex_clientid params param_count) inbound

/-- The message of source lines 144-148; `rap.sub_id`, `rap.reg_address` and
`rap.params` are the bytes of the feature-access view. -/
def rap_message (report_id sub_id reg_address : Nat)
    (params : List Nat) (param_count : Int) : hidpp_report :=
  let message := hidpp_report.zero
  let message := { message with report_id := report_id }
  let message := { message with fap := { message.fap with feature_index := sub_id } }
  let message := { message with fap := { message.fap with funcindex_clientid := reg_address } }
  { message with fap := { message.fap with
      params := memcpy_params message.fap.params params (size_t_of_int param_count) } }

/-- Source lines 130-151. -/
def hidpp_send_rap_command_sync (c : hidpp_consts) (dev : hidpp_device)
    (report_id sub_id reg_address : Nat) (params : List Nat) (param_count : Int)
    (inbound : List inbound_frame) : Int × hidpp_device :=
  if report_id ≠ c.REPORT_ID_HIDPP_SHORT ∧ report_id ≠ c.REPORT_ID_HIDPP_LONG then
    (-EINVAL, dev)
  else if size_t_of_int param_count > PARAMS_SIZE then (-EINVAL, dev)
  else
    hidpp_send_message_sync c dev
      (rap_message report_id sub_id reg_address params param_count) inbound

/-! ## Root feature -/

/-- Result of `hidpp_root_get_protocol_version`: the return value, the bytes
behind the two output pointers, and the session. -/
structure protocol_version_result where
  ret : Int
  protocol_major : Nat
  protocol_minor : Nat
  dev : hidpp_device

/-- Source lines 403-427. `protocol_major` and `protocol_minor` are the bytes
behind the output pointers before the call. -/
def hidpp_root_get_protocol_version (c : hidpp_consts) (dev : hidpp_device)
    (protocol_major protocol_minor : Nat) (inbound : List inbound_frame) :
    protocol_version_result :=
  let (ret, dev) :=
    hidpp_send_fap_command_sync c dev HIDPP_PAGE_ROOT c.CMD_ROOT_GET_PROTOCOL_VERSION
      [] 0 inbound
  let response := dev.send_receive_buf
  if ret = 1 then
    { ret := 0, protocol_major := 1, protocol_minor := 0, dev := dev }
  else if ret ≠ 0 then
    { ret := -ret, protocol_major := protocol_major, protocol_minor := protocol_minor,
      dev := dev }
  else
    { ret := ret, protocol_major := response.fap.params ⟨0, by decide⟩,
      protocol_minor := response.fap.params ⟨1, by decide⟩, dev := dev }

/-- Result of `hidpp_root_get_feature`: the return value, the bytes behind the
two output pointers, and the session. -/
structure root_feature_result where
  ret : Int
  feature_index : Nat
  feature_type : Nat
  dev : hidpp_device

/-- The initialiser `{ feature >> 8, feature & 0x00FF }` of source line 387,
each value converted to `u8`. -/
def root_get_feature_params (feature : Nat) : List Nat :=
  [(feature >>> 8) % 256, (feature &&& 0x00FF) % 256]

/-- Source lines 382-400. `feature_index` and `feature_type` are the bytes
behind the output pointers before the call. -/
def hidpp_root_get_feature (c : hidpp_consts) (dev : hidpp_device) (feature : Nat)
    (feature_index feature_type : Nat) (inbound : List inbound_frame) :
    root_feature_result :=
  let params := root_get_feature_params feature
  let (ret, dev) :=
    hidpp_send_fap_command_sync c dev HIDPP_PAGE_ROOT c.CMD_ROOT_GET_FEATURE
      params 2 inbound
  let response := dev.send_receive_buf
  if ret ≠ 0 then
    { ret := -ret, feature_index := feature_index, feature_type := feature_type, dev := dev }
  else
    { ret := ret, feature_index := response.fap.params ⟨0, by decide⟩,
      feature_type := response.fap.params ⟨1, by decide⟩, dev := dev }

/-! ## Deferred initialisation -/

/-- Source lines 172-207. `down_trylock` fails when the semaphore is held and
takes it otherwise; `up` releases it. -/
def hidpp_delayed_init (dev : hidpp_device) : hidpp_device :=
  if dev.initialized then dev
  else if dev.driver_lock then
    let dev := { dev with init_trace := dev.init_trace ++ [init_event.trylock_busy] }
    if dev.init_retry < MAX_INIT_RETRY then
      let dev := schedule_delayed_hidpp_init dev
      { dev with init_retry := dev.init_retry + 1 }
    else
      { dev with init_retry := 0 }
  else
    let dev := { dev with driver_lock := true,
                          init_trace := dev.init_trace ++ [init_event.trylock_taken] }
    let dev := { dev with driver_lock := false,
                          init_trace := dev.init_trace ++ [init_event.lock_up] }
    let (ret, dev) : Int × hidpp_device :=
      match dev.device_init with
      | some r =>
        (r, { dev with init_trace := dev.init_trace ++ [init_event.device_init_call] })
      | none => (0, dev)
    if ret = 0 then { dev with initialized := true } else dev

/-- Source lines 643-651, `struct touch_hidpp_report`. -/
structure touch_hidpp_report where
  x_m : Nat
  x_l : Nat
  y_m : Nat
  y_l : Nat
  z : Nat
  area : Nat
  id : Nat
  deriving DecidableEq, Repr

/-- Byte `j` of `touches[k]` in the layout of `struct dual_touch_hidpp_report`
(source lines 653-660): byte 6 + 7k + j of the report, which is
`params[2 + 7k + j]`. -/
def dual_touch_byte (r : hidpp_report) (k : Fin 2) (j : Fin 7) : Nat :=
  r.fap.params ⟨2 + 7 * k.val + j.val, by
    have hk := k.isLt
    have hj := j.isLt
    simp only [PARAMS_SIZE, HIDPP_REPORT_LONG_LENGTH]
    omega⟩

/-- The cast `(struct dual_touch_hidpp_report *)hidpp_report` of source line
686, member `touches[k]`: after report id, device index, feature index,
broadcast event and the 16-bit timestamp, which are the header bytes and
`params[0..1]` of the report, record `k` is `params[2 + 7k .. 8 + 7k]`. -/
def dual_touch_touches (r : hidpp_report) (k : Fin 2) : touch_hidpp_report where
  x_m := dual_touch_byte r k 0
  x_l := dual_touch_byte r k 1
  y_m := dual_touch_byte r k 2
  y_l := dual_touch_byte r k 3
  z := dual_touch_byte r k 4
  area := dual_touch_byte r k 5
  id := dual_touch_byte r k 6

/-- Modelled from the spec: `struct hidpp_touchpad_raw_xy_finger` of the missing
header `hid-logitech-hidpp.h`, the members `hidpp_touchpad_touch_event` writes.
The axis members hold the value computed for them without loss (it is below
2^14); the other values are below 2^8 for byte inputs. -/
structure hidpp_touchpad_raw_xy_finger where
  contact_type : Nat
  contact_status : Nat
  x : Nat
  y : Nat
  z : Nat
  area : Nat
  finger_id : Nat
  deriving DecidableEq, Repr

/-- Modelled from the spec: `struct hidpp_touchpad_raw_xy` of the missing header
`hid-logitech-hidpp.h`, the members `hidpp_touchpad_raw_xy_event` writes. -/
structure hidpp_touchpad_raw_xy where
  fingers : Fin 2 → hidpp_touchpad_raw_xy_finger
  spurious_flag : Nat
  end_of_frame : Nat
  finger_count : Nat

/-- Source lines 662-678. The locals `x_m` and `y_m` are `u8`, so the shifted
byte is cut to 8 bits. -/
def hidpp_touchpad_touch_event (touch_report : touch_hidpp_report)
    (finger : hidpp_touchpad_raw_xy_finger) : hidpp_touchpad_raw_xy_finger :=
  let x_m : Nat := (touch_report.x_m <<< 2) % 256
  let y_m : Nat := (touch_report.y_m <<< 2) % 256
  let finger := { finger with contact_type := touch_report.x_m >>> 6 }
  let finger := { finger with x := x_m <<< 6 ||| touch_report.x_l }
  let finger := { finger with contact_status := touch_report.y_m >>> 6 }
  let finger := { finger with y := y_m <<< 6 ||| touch_report.y_l }
  let finger := { finger with finger_id := touch_report.id >>> 4 }
  let finger := { finger with z := touch_report.z }
  { finger with area := touch_report.area }

/-- Source lines 680-700. -/
def hidpp_touchpad_raw_xy_event (hidpp_report : hidpp_report)
    (raw_xy : hidpp_touchpad_raw_xy) : hidpp_touchpad_raw_xy :=
  let raw_xy := { raw_xy with end_of_frame := (dual_touch_touches hidpp_report 0).id &&& 0x01 }
  let raw_xy :=
    { raw_xy with spurious_flag := ((dual_touch_touches hidpp_report 0).id >>> 1) &&& 0x01 }
  let raw_xy := { raw_xy with finger_count := (dual_touch_touches hidpp_report 1).id &&& 0x0f }
  if raw_xy.finger_count ≠ 0 then
    let raw_xy :=
      { raw_xy with fingers := (Function.update raw_xy.fingers 0
          (hidpp_touchpad_touch_event (dual_touch_touches hidpp_report 0) (raw_xy.fingers 0))) }
    if (raw_xy.end_of_frame ≠ 0 ∧ raw_xy.finger_count = 4) ∨
       (¬ raw_xy.end_of_frame ≠ 0 ∧ raw_xy.finger_count ≥ 2) then
      { raw_xy with fingers := (Function.update raw_xy.fingers 1
          (hidpp_touchpad_touch_event (dual_touch_touches hidpp_report 1) (raw_xy.fingers 1))) }
    else raw_xy
  else raw_xy

/-! ## Sample sessions and frames, used for concrete evaluations -/

/-- The memory behind a `data` pointer that holds the listed bytes, followed by
zero bytes. -/
def frame_of (bytes : List Nat) : Nat → Nat := fun i => bytes.getD i 0

/-- A session with no transaction outstanding, no hook installed, empty logs
and an empty work fifo of 32 items. -/
def idle_session : hidpp_device where
  initialized := false
  init_retry := 0
  delayed_work_fifo := []
  delayed_work_fifo_size := 32
  work_pending := false
  send_mutex := false
  send_receive_buf := hidpp_report.zero
  answer_available := false
  raw_event := none
  raw_event_calls := []
  hid_hw_requests := []
  driver_lock := false
  device_init := none
  init_trace := []

/-- A long feature-access request to feature index 5, function byte 0x1a, no
parameters. -/
def sample_question : hidpp_report :=
  { hidpp_report.zero with
    report_id := 0x11
    fap := { hidpp_report.zero.fap with feature_index := 5, funcindex_clientid := 0x1a } }

/-- A session in the middle of a transaction for `sample_question`: the mutex is
held, the question sits in the result buffer and no answer has arrived. -/
def waiting_session : hidpp_device :=
  { idle_session with send_mutex := true, send_receive_buf := sample_question }

/-- The session `waiting_session` with a hook `raw_event` installed that
returns 0. -/
def waiting_session_hooked : hidpp_device :=
  { waiting_session with raw_event := some (fun _ _ => 0) }

/-- How a report consumed as the answer is observed: the function returns 1,
the report is in the result buffer, `answer_available` is set and the hook
`raw_event` was not invoked. -/
def consumed_as_answer (dev : hidpp_device) (data : Nat → Nat)
    (res : Int × hidpp_device) : Prop :=
  res.1 = 1 ∧ res.2.send_receive_buf = hidpp_report.at_data data ∧
  res.2.answer_available = true ∧ res.2.raw_event_calls = dev.raw_event_calls

/-- A short register-access style request to feature index 5 with function
byte 0. -/
def sample_question_zero : hidpp_report :=
  { hidpp_report.zero with
    report_id := 0x10
    fap := { hidpp_report.zero.fap with feature_index := 5, funcindex_clientid := 0 } }

/-- An uninitialised session whose driver lock is held by another user of the
device, with one Init item in the fifo and the work queued, as a connection
notification leaves it. -/
def busy_session : hidpp_device :=
  { idle_session with
    driver_lock := true, delayed_work_fifo := [HIDPP_INIT], work_pending := true }

/-- An uninitialised session whose driver lock is free and whose hook
`device_init` returns 0. -/
def ready_session : hidpp_device :=
  { idle_session with device_init := some 0 }

/-- An uninitialised session whose driver lock is free and whose hook
`device_init` fails with -5. -/
def failing_session : hidpp_device :=
  { idle_session with device_init := some (-5) }

/-- The memory of a DJ short connection-status notification from device 1 whose
status byte is 0 (link established). -/
def connect_notification : Nat → Nat :=
  frame_of [0x20, 1, 0x42, 0x00, 0x04, 0x61, 0x40]

/-- A finger slot with every member 0. -/
def blank_finger : hidpp_touchpad_raw_xy_finger :=
  { contact_type := 0, contact_status := 0, x := 0, y := 0, z := 0, area := 0,
    finger_id := 0 }

/-- A touch frame in which nothing has been written: both finger slots blank. -/
def blank_raw_xy : hidpp_touchpad_raw_xy :=
  { fingers := fun _ => blank_finger, spurious_flag := 0, end_of_frame := 0,
    finger_count := 0 }

/-- A long raw-coordinates report: header, timestamp 0x0102, the first record
(0x41, 0x23, 0x02, 0x10, 0x30, 0x05, `id0`) and the second record
(0x03, 0x20, 0x01, 0x08, 0x28, 0x04, `id1`). -/
def touch_report_with (id0 id1 : Nat) : hidpp_report :=
  hidpp_report.at_data (frame_of
    [0x11, 1, 0x0d, 0x00, 0x01, 0x02,
     0x41, 0x23, 0x02, 0x10, 0x30, 0x05, id0,
     0x03, 0x20, 0x01, 0x08, 0x28, 0x04, id1])

/-- An uninitialised session whose fifo is full: it holds 32 Init items, the
work is queued. -/
def full_session : hidpp_device :=
  { idle_session with
    delayed_work_fifo := List.replicate 32 HIDPP_INIT, work_pending := true }

/-! ## Theorems -/

theorem forward_raw_event_not_consumed (dev : hidpp_device) (data : Nat → Nat)
    (size : Int) : ¬ consumed_as_answer dev data (forward_raw_event dev data size) := by
  unfold consumed_as_answer forward_raw_event
  cases h : dev.raw_event with
  | none => simp
  | some handler => simp

theorem raw_hidpp_event_of_correct (c : hidpp_consts) (dev : hidpp_device)
    (data : Nat → Nat) (size : Int) (hm : dev.send_mutex = true)
    (hc : correct_answer c (hidpp_report.at_data data) dev.send_receive_buf) :
    hidpp_raw_hidpp_event c dev data size =
      (1, { dev with send_receive_buf := hidpp_report.at_data data,
                     answer_available := true }) := by
  simp [hidpp_raw_hidpp_event, hm, hc]

theorem raw_hidpp_event_of_not_correct (c : hidpp_consts) (dev : hidpp_device)
    (data : Nat → Nat) (size : Int)
    (hc : ¬ (dev.send_mutex = true ∧
      correct_answer c (hidpp_report.at_data data) dev.send_receive_buf)) :
    hidpp_raw_hidpp_event c dev data size = forward_raw_event dev data size := by
  unfold hidpp_raw_hidpp_event
  simp only [if_neg hc]

/-- C1 (as the code has it): while a transaction is outstanding,
`hidpp_raw_hidpp_event` consumes an inbound report as the answer if and only if
(a) its feature index and function byte both equal the request's, or (b) its
feature index is `HIDPP_ERROR`, its function byte equals the request's feature
index and `params[0]` equals the request's function byte. -/
theorem raw_hidpp_event_consumes_iff (c : hidpp_consts) (dev : hidpp_device)
    (data : Nat → Nat) (size : Int) (hm : dev.send_mutex = true) :
    consumed_as_answer dev data (hidpp_raw_hidpp_event c dev data size) ↔
      (((hidpp_report.at_data data).fap.feature_index = dev.send_receive_buf.fap.feature_index ∧
        (hidpp_report.at_data data).fap.funcindex_clientid =
          dev.send_receive_buf.fap.funcindex_clientid) ∨
       ((hidpp_report.at_data data).fap.feature_index = c.HIDPP_ERROR ∧
        (hidpp_report.at_data data).fap.funcindex_clientid =
          dev.send_receive_buf.fap.feature_index ∧
        (hidpp_report.at_data data).fap.params ⟨0, by decide⟩ =
          dev.send_receive_buf.fap.funcindex_clientid)) := by
  constructor
  · intro h
    by_contra hc
    have hn : ¬ (dev.send_mutex = true ∧
        correct_answer c (hidpp_report.at_data data) dev.send_receive_buf) :=
      fun hh => hc hh.2
    rw [raw_hidpp_event_of_not_correct c dev data size hn] at h
    exact forward_raw_event_not_consumed dev data size h
  · intro h
    rw [raw_hidpp_event_of_correct c dev data size hm h]
    simp [consumed_as_answer]

/-- Witness of C1: the session waiting for `sample_question` and a long report
that echoes its feature index and function byte. -/
theorem raw_hidpp_event_consumes_iff_witness :
    waiting_session.send_mutex = true ∧
    (consumed_as_answer waiting_session (frame_of [0x11, 0, 5, 0x1a, 7])
      (hidpp_raw_hidpp_event hidpp_h waiting_session (frame_of [0x11, 0, 5, 0x1a, 7]) 152) ↔
     (((hidpp_report.at_data (frame_of [0x11, 0, 5, 0x1a, 7])).fap.feature_index =
          waiting_session.send_receive_buf.fap.feature_index ∧
        (hidpp_report.at_data (frame_of [0x11, 0, 5, 0x1a, 7])).fap.funcindex_clientid =
          waiting_session.send_receive_buf.fap.funcindex_clientid) ∨
       ((hidpp_report.at_data (frame_of [0x11, 0, 5, 0x1a, 7])).fap.feature_index =
          hidpp_h.HIDPP_ERROR ∧
        (hidpp_report.at_data (frame_of [0x11, 0, 5, 0x1a, 7])).fap.funcindex_clientid =
          waiting_session.send_receive_buf.fap.feature_index ∧
        (hidpp_report.at_data (frame_of [0x11, 0, 5, 0x1a, 7])).fap.params ⟨0, by decide⟩ =
          waiting_session.send_receive_buf.fap.funcindex_clientid))) :=
  ⟨rfl, raw_hidpp_event_consumes_iff hidpp_h waiting_session
    (frame_of [0x11, 0, 5, 0x1a, 7]) 152 rfl⟩

/-- C1 as stated fails: the report has feature index `HIDPP_ERROR` and
`params[0]` equal to the request's function byte 0x1a, so condition (b) of the
claim holds, but its function byte 7 is not the request's feature index 5 and
the report is not consumed: the function returns 0 and `answer_available` stays
false. -/
theorem raw_hidpp_event_error_echo_not_sufficient :
    waiting_session.send_mutex = true ∧
    ((hidpp_report.at_data (frame_of [0x10, 0, 0x8f, 7, 0x1a])).fap.feature_index =
        hidpp_h.HIDPP_ERROR ∧
     (hidpp_report.at_data (frame_of [0x10, 0, 0x8f, 7, 0x1a])).fap.params ⟨0, by decide⟩ =
        waiting_session.send_receive_buf.fap.funcindex_clientid) ∧
    (hidpp_raw_hidpp_event hidpp_h waiting_session
        (frame_of [0x10, 0, 0x8f, 7, 0x1a]) 48).1 = 0 ∧
    (hidpp_raw_hidpp_event hidpp_h waiting_session
        (frame_of [0x10, 0, 0x8f, 7, 0x1a]) 48).2.answer_available = false ∧
    ¬ consumed_as_answer waiting_session (frame_of [0x10, 0, 0x8f, 7, 0x1a])
        (hidpp_raw_hidpp_event hidpp_h waiting_session
          (frame_of [0x10, 0, 0x8f, 7, 0x1a]) 48) := by
  refine ⟨rfl, ⟨rfl, rfl⟩, ?_, ?_, ?_⟩
  · decide
  · decide
  · intro h
    have h1 := h.1
    revert h1
    decide

/-- C2: when a transaction is outstanding and the inbound report carries the
feature index and function byte of the request, `hidpp_raw_hidpp_event` returns
1, the whole report is copied into the result buffer, `answer_available` is
set, nothing else in the session changes and the hook `raw_event` is not
invoked. -/
theorem raw_hidpp_event_matching_answer (c : hidpp_consts) (dev : hidpp_device)
    (data : Nat → Nat) (size : Int) (hm : dev.send_mutex = true)
    (hf : (hidpp_report.at_data data).fap.feature_index =
      dev.send_receive_buf.fap.feature_index)
    (hg : (hidpp_report.at_data data).fap.funcindex_clientid =
      dev.send_receive_buf.fap.funcindex_clientid) :
    hidpp_raw_hidpp_event c dev data size =
      (1, { dev with send_receive_buf := hidpp_report.at_data data,
                     answer_available := true }) ∧
    (hidpp_raw_hidpp_event c dev data size).1 = 1 ∧
    (hidpp_raw_hidpp_event c dev data size).2.send_receive_buf = hidpp_report.at_data data ∧
    (hidpp_raw_hidpp_event c dev data size).2.answer_available = true ∧
    (hidpp_raw_hidpp_event c dev data size).2.raw_event_calls = dev.raw_event_calls := by
  have h := raw_hidpp_event_of_correct c dev data size hm (Or.inl ⟨hf, hg⟩)
  rw [h]
  exact ⟨rfl, rfl, rfl, rfl, rfl⟩

/-- Witness of C2: the session waiting for `sample_question` with a hook
installed, and a long report that echoes the request. -/
theorem raw_hidpp_event_matching_answer_witness :
    (hidpp_raw_hidpp_event hidpp_h waiting_session_hooked
        (frame_of [0x11, 0, 5, 0x1a, 7, 9]) 152).1 = 1 ∧
    (hidpp_raw_hidpp_event hidpp_h waiting_session_hooked
        (frame_of [0x11, 0, 5, 0x1a, 7, 9]) 152).2.send_receive_buf =
      hidpp_report.at_data (frame_of [0x11, 0, 5, 0x1a, 7, 9]) ∧
    (hidpp_raw_hidpp_event hidpp_h waiting_session_hooked
        (frame_of [0x11, 0, 5, 0x1a, 7, 9]) 152).2.answer_available = true ∧
    (hidpp_raw_hidpp_event hidpp_h waiting_session_hooked
        (frame_of [0x11, 0, 5, 0x1a, 7, 9]) 152).2.raw_event_calls = [] :=
  (raw_hidpp_event_matching_answer hidpp_h waiting_session_hooked
    (frame_of [0x11, 0, 5, 0x1a, 7, 9]) 152 rfl rfl rfl).2

/-- C3 (as the code has it): a report that is not consumed as the answer,
in particular one that arrives while a transaction is outstanding and does not
match the request, leaves the result buffer and `answer_available` unchanged
and is handed to the hook `raw_event`: with a hook installed the hook is
invoked once with the report and its return value is returned, with no hook
the function returns 0 and the session is unchanged. -/
theorem raw_hidpp_event_non_matching_forwarded (c : hidpp_consts) (dev : hidpp_device)
    (data : Nat → Nat) (size : Int)
    (hc : ¬ (dev.send_mutex = true ∧
      correct_answer c (hidpp_report.at_data data) dev.send_receive_buf)) :
    (hidpp_raw_hidpp_event c dev data size).2.send_receive_buf = dev.send_receive_buf ∧
    (hidpp_raw_hidpp_event c dev data size).2.answer_available = dev.answer_available ∧
    (∀ handler, dev.raw_event = some handler →
      (hidpp_raw_hidpp_event c dev data size).1 = handler data size ∧
      (hidpp_raw_hidpp_event c dev data size).2.raw_event_calls.length =
        dev.raw_event_calls.length + 1 ∧
      ∃ f : inbound_frame, f.data = data ∧ f.size = size ∧
        (hidpp_raw_hidpp_event c dev data size).2.raw_event_calls =
          dev.raw_event_calls ++ [f]) ∧
    (dev.raw_event = none → hidpp_raw_hidpp_event c dev data size = (0, dev)) := by
  rw [raw_hidpp_event_of_not_correct c dev data size hc]
  unfold forward_raw_event
  cases h : dev.raw_event with
  | none => simp
  | some handler =>
    refine ⟨rfl, rfl, ?_, ?_⟩
    · intro handler2 h2
      cases h2
      exact ⟨rfl, by simp, ⟨data, size⟩, rfl, rfl, rfl⟩
    · intro h2
      cases h2

/-- Witness of C3: the session waiting for `sample_question` with a hook
installed, and a long report for another feature index. -/
theorem raw_hidpp_event_non_matching_forwarded_witness :
    ¬ (waiting_session_hooked.send_mutex = true ∧
      correct_answer hidpp_h (hidpp_report.at_data (frame_of [0x11, 0, 6, 0x1a, 7]))
        waiting_session_hooked.send_receive_buf) ∧
    (hidpp_raw_hidpp_event hidpp_h waiting_session_hooked
        (frame_of [0x11, 0, 6, 0x1a, 7]) 152).2.send_receive_buf =
      waiting_session_hooked.send_receive_buf ∧
    (hidpp_raw_hidpp_event hidpp_h waiting_session_hooked
        (frame_of [0x11, 0, 6, 0x1a, 7]) 152).2.answer_available =
      waiting_session_hooked.answer_available :=
  have hc : ¬ (waiting_session_hooked.send_mutex = true ∧
      correct_answer hidpp_h (hidpp_report.at_data (frame_of [0x11, 0, 6, 0x1a, 7]))
        waiting_session_hooked.send_receive_buf) := by decide
  ⟨hc,
   (raw_hidpp_event_non_matching_forwarded hidpp_h waiting_session_hooked
      (frame_of [0x11, 0, 6, 0x1a, 7]) 152 hc).1,
   (raw_hidpp_event_non_matching_forwarded hidpp_h waiting_session_hooked
      (frame_of [0x11, 0, 6, 0x1a, 7]) 152 hc).2.1⟩

/-- C3 as stated fails: a transaction is outstanding, the report does not match
the request, and the hook `raw_event` is invoked all the same: its call log
goes from empty to one entry. -/
theorem raw_hidpp_event_non_matching_reaches_hook :
    waiting_session_hooked.send_mutex = true ∧
    ¬ correct_answer hidpp_h (hidpp_report.at_data (frame_of [0x11, 0, 6, 0x1a, 7]))
        waiting_session_hooked.send_receive_buf ∧
    waiting_session_hooked.raw_event_calls.length = 0 ∧
    (hidpp_raw_hidpp_event hidpp_h waiting_session_hooked
        (frame_of [0x11, 0, 6, 0x1a, 7]) 152).2.raw_event_calls.length = 1 := by
  refine ⟨rfl, by decide, rfl, ?_⟩
  decide

/-! ### The synchronous transaction -/

theorem forward_raw_event_keeps (dev : hidpp_device) (data : Nat → Nat) (size : Int) :
    (forward_raw_event dev data size).2.send_mutex = dev.send_mutex ∧
    (forward_raw_event dev data size).2.hid_hw_requests = dev.hid_hw_requests ∧
    (forward_raw_event dev data size).2.send_receive_buf = dev.send_receive_buf ∧
    (forward_raw_event dev data size).2.answer_available = dev.answer_available := by
  unfold forward_raw_event
  cases dev.raw_event <;> simp

theorem schedule_delayed_hidpp_init_keeps (dev : hidpp_device) :
    (schedule_delayed_hidpp_init dev).send_mutex = dev.send_mutex ∧
    (schedule_delayed_hidpp_init dev).hid_hw_requests = dev.hid_hw_requests ∧
    (schedule_delayed_hidpp_init dev).send_receive_buf = dev.send_receive_buf ∧
    (schedule_delayed_hidpp_init dev).answer_available = dev.answer_available := by
  unfold schedule_delayed_hidpp_init schedule_work kfifo_in
  split <;> simp
  split <;> split <;> simp

theorem raw_dj_event_keeps (c : hidpp_consts) (dev : hidpp_device) (data : Nat → Nat) :
    (hidpp_raw_dj_event c dev data).2.send_mutex = dev.send_mutex ∧
    (hidpp_raw_dj_event c dev data).2.hid_hw_requests = dev.hid_hw_requests ∧
    (hidpp_raw_dj_event c dev data).2.send_receive_buf = dev.send_receive_buf ∧
    (hidpp_raw_dj_event c dev data).2.answer_available = dev.answer_available := by
  unfold hidpp_raw_dj_event
  split
  · dsimp only
    split
    · exact schedule_delayed_hidpp_init_keeps dev
    · simp
  · simp

theorem raw_hidpp_event_keeps (c : hidpp_consts) (dev : hidpp_device) (data : Nat → Nat)
    (size : Int) :
    (hidpp_raw_hidpp_event c dev data size).2.send_mutex = dev.send_mutex ∧
    (hidpp_raw_hidpp_event c dev data size).2.hid_hw_requests = dev.hid_hw_requests := by
  unfold hidpp_raw_hidpp_event
  dsimp only
  split
  · simp
  · exact ⟨(forward_raw_event_keeps dev data size).1, (forward_raw_event_keeps dev data size).2.1⟩

theorem raw_event_keeps (c : hidpp_consts) (dev : hidpp_device) (data : Nat → Nat)
    (size : Int) :
    (hidpp_raw_event c dev data size).2.send_mutex = dev.send_mutex ∧
    (hidpp_raw_event c dev data size).2.hid_hw_requests = dev.hid_hw_requests := by
  unfold hidpp_raw_event
  simp only
  split
  · exact ⟨(raw_dj_event_keeps c dev data).1, (raw_dj_event_keeps c dev data).2.1⟩
  · split
    · split
      · simp
      · exact raw_hidpp_event_keeps c dev data size
    · split
      · split
        · simp
        · exact raw_hidpp_event_keeps c dev data size
      · exact ⟨(forward_raw_event_keeps dev data size).1,
          (forward_raw_event_keeps dev data size).2.1⟩

theorem deliver_keeps (c : hidpp_consts) (inbound : List inbound_frame) :
    ∀ dev : hidpp_device,
      (deliver c dev inbound).send_mutex = dev.send_mutex ∧
      (deliver c dev inbound).hid_hw_requests = dev.hid_hw_requests := by
  induction inbound with
  | nil => intro dev; exact ⟨rfl, rfl⟩
  | cons f rest ih =>
    intro dev
    have h1 := ih (hidpp_raw_event c dev f.data f.size).2
    have h2 := raw_event_keeps c dev f.data f.size
    simp only [deliver]
    exact ⟨h1.1.trans h2.1, h1.2.trans h2.2⟩

theorem send_message_sync_unsendable (c : hidpp_consts) (dev : hidpp_device)
    (message : hidpp_report) (inbound : List inbound_frame)
    (hs : message.report_id ≠ c.REPORT_ID_HIDPP_SHORT ∧
      message.report_id ≠ c.REPORT_ID_HIDPP_LONG) :
    hidpp_send_message_sync c dev message inbound =
      (-ENODEV, { dev with send_mutex := false, answer_available := false,
                           send_receive_buf := hidpp_report.zero }) := by
  simp [hidpp_send_message_sync, __hidpp_send_report, hs, ENODEV]

theorem send_message_sync_sendable (c : hidpp_consts) (dev : hidpp_device)
    (message : hidpp_report) (inbound : List inbound_frame)
    (hs : ¬ (message.report_id ≠ c.REPORT_ID_HIDPP_SHORT ∧
      message.report_id ≠ c.REPORT_ID_HIDPP_LONG)) :
    hidpp_send_message_sync c dev message inbound =
      (let w := deliver c { dev with send_mutex := true, answer_available := false,
                                     send_receive_buf := message,
                                     hid_hw_requests := dev.hid_hw_requests ++ [message] }
                  inbound
       let r := if w.answer_available = false then hidpp_report.zero else w.send_receive_buf
       (if r.report_id = c.REPORT_ID_HIDPP_SHORT ∧ r.fap.feature_index = c.HIDPP_ERROR then
          (r.fap.params ⟨0, by decide⟩ : Int)
        else if w.answer_available = false then -1 else 0,
        { w with send_receive_buf := r, send_mutex := false })) := by
  simp only [hidpp_send_message_sync, __hidpp_send_report, if_neg hs, wait_event_timeout]
  simp only [ne_eq, not_true_eq_false, if_false]
  cases h : (deliver c { dev with send_mutex := true, answer_available := false,
                                     send_receive_buf := message,
                                     hid_hw_requests := dev.hid_hw_requests ++ [message] }
                  inbound).answer_available
  · simp
    split <;> simp
  · simp [h]
    split <;> simp

/-- C4 (as the code has it): for a request that was sent, when the response
left in the caller's buffer is a short report whose feature index is
`HIDPP_ERROR`, `hidpp_send_message_sync` returns the byte `params[0]` of that
response; an answer with any other report id, the long one included, is not
examined for `HIDPP_ERROR` and the call returns 0. -/
theorem send_message_sync_error_answer (c : hidpp_consts) (dev : hidpp_device)
    (message : hidpp_report) (inbound : List inbound_frame)
    (hs : message.report_id = c.REPORT_ID_HIDPP_SHORT ∨
      message.report_id = c.REPORT_ID_HIDPP_LONG) :
    ((hidpp_send_message_sync c dev message inbound).2.send_receive_buf.report_id =
        c.REPORT_ID_HIDPP_SHORT →
      (hidpp_send_message_sync c dev message inbound).2.send_receive_buf.fap.feature_index =
        c.HIDPP_ERROR →
      (hidpp_send_message_sync c dev message inbound).1 =
        ((hidpp_send_message_sync c dev message inbound).2.send_receive_buf.fap.params
          ⟨0, by decide⟩ : Int)) ∧
    ((hidpp_send_message_sync c dev message inbound).2.answer_available = true →
      (hidpp_send_message_sync c dev message inbound).2.send_receive_buf.report_id ≠
        c.REPORT_ID_HIDPP_SHORT →
      (hidpp_send_message_sync c dev message inbound).1 = 0) := by
  have hs2 : ¬ (message.report_id ≠ c.REPORT_ID_HIDPP_SHORT ∧
      message.report_id ≠ c.REPORT_ID_HIDPP_LONG) := by
    rcases hs with h | h <;> simp [h]
  rw [send_message_sync_sendable c dev message inbound hs2]
  dsimp only
  constructor
  · intro h1 h2
    rw [if_pos ⟨h1, h2⟩]
  · intro h1 h2
    rw [if_neg (fun h => h2 h.1)]
    simp [h1]

/-- Witness of C4: `sample_question` is sent and a short HID++ 1.0 error report
that echoes it arrives; the call returns the byte `params[0]` = 0x1a. -/
theorem send_message_sync_error_answer_witness :
    (sample_question.report_id = hidpp_h.REPORT_ID_HIDPP_SHORT ∨
      sample_question.report_id = hidpp_h.REPORT_ID_HIDPP_LONG) ∧
    (hidpp_send_message_sync hidpp_h idle_session sample_question
        [⟨frame_of [0x10, 0, 0x8f, 5, 0x1a, 2], 48⟩]).2.send_receive_buf.report_id =
      hidpp_h.REPORT_ID_HIDPP_SHORT ∧
    (hidpp_send_message_sync hidpp_h idle_session sample_question
        [⟨frame_of [0x10, 0, 0x8f, 5, 0x1a, 2], 48⟩]).2.send_receive_buf.fap.feature_index =
      hidpp_h.HIDPP_ERROR ∧
    (hidpp_send_message_sync hidpp_h idle_session sample_question
        [⟨frame_of [0x10, 0, 0x8f, 5, 0x1a, 2], 48⟩]).1 = 0x1a :=
  have h1 : (hidpp_send_message_sync hidpp_h idle_session sample_question
        [⟨frame_of [0x10, 0, 0x8f, 5, 0x1a, 2], 48⟩]).2.send_receive_buf.report_id =
      hidpp_h.REPORT_ID_HIDPP_SHORT := by decide
  have h2 : (hidpp_send_message_sync hidpp_h idle_session sample_question
        [⟨frame_of [0x10, 0, 0x8f, 5, 0x1a, 2], 48⟩]).2.send_receive_buf.fap.feature_index =
      hidpp_h.HIDPP_ERROR := by decide
  ⟨Or.inr rfl, h1, h2,
   ((send_message_sync_error_answer hidpp_h idle_session sample_question
      [⟨frame_of [0x10, 0, 0x8f, 5, 0x1a, 2], 48⟩] (Or.inr rfl)).1 h1 h2).trans (by decide)⟩

/-- C4 as stated fails twice. A long report with feature index `HIDPP_ERROR`
that echoes `sample_question` is accepted as the answer and the call returns 0
although `params[0]` is 0x1a. A short error report that echoes a request whose
function byte is 0 is accepted and the call returns its `params[0]`, which is
0. -/
theorem send_message_sync_error_answer_returns_zero :
    ((hidpp_send_message_sync hidpp_h idle_session sample_question
        [⟨frame_of [0x11, 0, 0x8f, 5, 0x1a, 2], 152⟩]).2.answer_available = true ∧
     (hidpp_send_message_sync hidpp_h idle_session sample_question
        [⟨frame_of [0x11, 0, 0x8f, 5, 0x1a, 2], 152⟩]).2.send_receive_buf.report_id =
        hidpp_h.REPORT_ID_HIDPP_LONG ∧
     (hidpp_send_message_sync hidpp_h idle_session sample_question
        [⟨frame_of [0x11, 0, 0x8f, 5, 0x1a, 2], 152⟩]).2.send_receive_buf.fap.feature_index =
        hidpp_h.HIDPP_ERROR ∧
     (hidpp_send_message_sync hidpp_h idle_session sample_question
        [⟨frame_of [0x11, 0, 0x8f, 5, 0x1a, 2], 152⟩]).2.send_receive_buf.fap.params
          ⟨0, by decide⟩ = 0x1a ∧
     (hidpp_send_message_sync hidpp_h idle_session sample_question
        [⟨frame_of [0x11, 0, 0x8f, 5, 0x1a, 2], 152⟩]).1 = 0) ∧
    ((hidpp_send_message_sync hidpp_h idle_session sample_question_zero
        [⟨frame_of [0x10, 0, 0x8f, 5, 0, 2], 48⟩]).2.answer_available = true ∧
     (hidpp_send_message_sync hidpp_h idle_session sample_question_zero
        [⟨frame_of [0x10, 0, 0x8f, 5, 0, 2], 48⟩]).2.send_receive_buf.report_id =
        hidpp_h.REPORT_ID_HIDPP_SHORT ∧
     (hidpp_send_message_sync hidpp_h idle_session sample_question_zero
        [⟨frame_of [0x10, 0, 0x8f, 5, 0, 2], 48⟩]).2.send_receive_buf.fap.feature_index =
        hidpp_h.HIDPP_ERROR ∧
     (hidpp_send_message_sync hidpp_h idle_session sample_question_zero
        [⟨frame_of [0x10, 0, 0x8f, 5, 0, 2], 48⟩]).1 = 0) := by
  decide

/-- C5: whenever `hidpp_send_message_sync` returns without an answer
(`answer_available` is false), it returns a nonzero error and the caller's
response buffer is all zero. When the report id is neither short nor long the
result is `-ENODEV`, whatever arrives: nothing is transmitted, no frame is
delivered, the wait is not entered. When the request was sent the wait has
timed out and the result is -1: the zeroed buffer is not read as an error
answer. The constants come from a header that is not part of the source file;
what is used of them is that the short report id or `HIDPP_ERROR` is not 0. -/
theorem send_message_sync_no_answer (c : hidpp_consts) (dev : hidpp_device)
    (message : hidpp_report) (inbound : List inbound_frame)
    (hz : c.REPORT_ID_HIDPP_SHORT ≠ 0 ∨ c.HIDPP_ERROR ≠ 0)
    (hn : (hidpp_send_message_sync c dev message inbound).2.answer_available = false) :
    (hidpp_send_message_sync c dev message inbound).1 ≠ 0 ∧
    (hidpp_send_message_sync c dev message inbound).2.send_receive_buf = hidpp_report.zero ∧
    ((message.report_id ≠ c.REPORT_ID_HIDPP_SHORT ∧
        message.report_id ≠ c.REPORT_ID_HIDPP_LONG) →
      (hidpp_send_message_sync c dev message inbound).1 = -ENODEV ∧
      hidpp_send_message_sync c dev message inbound =
        hidpp_send_message_sync c dev message [] ∧
      (hidpp_send_message_sync c dev message inbound).2.hid_hw_requests =
        dev.hid_hw_requests ∧
      (hidpp_send_message_sync c dev message inbound).2.raw_event_calls =
        dev.raw_event_calls) ∧
    ((message.report_id = c.REPORT_ID_HIDPP_SHORT ∨
        message.report_id = c.REPORT_ID_HIDPP_LONG) →
      (hidpp_send_message_sync c dev message inbound).1 = -1) := by
  have hzero : ¬ (hidpp_report.zero.report_id = c.REPORT_ID_HIDPP_SHORT ∧
      hidpp_report.zero.fap.feature_index = c.HIDPP_ERROR) := by
    intro h
    rcases hz with h0 | h0
    · exact h0 h.1.symm
    · exact h0 h.2.symm
  by_cases hs : message.report_id ≠ c.REPORT_ID_HIDPP_SHORT ∧
      message.report_id ≠ c.REPORT_ID_HIDPP_LONG
  · rw [send_message_sync_unsendable c dev message inbound hs,
      send_message_sync_unsendable c dev message [] hs]
    refine ⟨by simp [ENODEV], rfl, fun _ => ⟨rfl, rfl, rfl, rfl⟩, ?_⟩
    intro h
    rcases h with h | h
    · exact absurd h hs.1
    · exact absurd h hs.2
  · rw [send_message_sync_sendable c dev message inbound hs] at hn ⊢
    dsimp only at hn ⊢
    rw [if_pos hn, if_neg hzero, if_pos hn]
    exact ⟨by decide, rfl, fun h => absurd h hs, fun _ => rfl⟩

/-- Witness of C5: `sample_question` is sent and the only report that arrives
is for another feature index, so the wait times out. -/
theorem send_message_sync_no_answer_witness :
    (hidpp_h.REPORT_ID_HIDPP_SHORT ≠ 0 ∨ hidpp_h.HIDPP_ERROR ≠ 0) ∧
    (hidpp_send_message_sync hidpp_h idle_session sample_question
        [⟨frame_of [0x11, 0, 6, 0x1a, 7], 152⟩]).2.answer_available = false ∧
    (hidpp_send_message_sync hidpp_h idle_session sample_question
        [⟨frame_of [0x11, 0, 6, 0x1a, 7], 152⟩]).1 ≠ 0 ∧
    (hidpp_send_message_sync hidpp_h idle_session sample_question
        [⟨frame_of [0x11, 0, 6, 0x1a, 7], 152⟩]).2.send_receive_buf = hidpp_report.zero :=
  have hz : hidpp_h.REPORT_ID_HIDPP_SHORT ≠ 0 ∨ hidpp_h.HIDPP_ERROR ≠ 0 :=
    Or.inl (by decide)
  have hn : (hidpp_send_message_sync hidpp_h idle_session sample_question
        [⟨frame_of [0x11, 0, 6, 0x1a, 7], 152⟩]).2.answer_available = false := by decide
  ⟨hz, hn,
   (send_message_sync_no_answer hidpp_h idle_session sample_question
      [⟨frame_of [0x11, 0, 6, 0x1a, 7], 152⟩] hz hn).1,
   (send_message_sync_no_answer hidpp_h idle_session sample_question
      [⟨frame_of [0x11, 0, 6, 0x1a, 7], 152⟩] hz hn).2.1⟩

/-! ### The size check of `hidpp_raw_event` -/

theorem shiftRight_three (size : Int) : size >>> (3 : Nat) = size / 8 := by
  have h := Int.shiftRight_eq_div_pow size 3
  simpa using h

theorem raw_event_hidpp_short (c : hidpp_consts) (dev : hidpp_device) (data : Nat → Nat)
    (size : Int) (hd : c.case_labels_distinct) (h0 : data 0 = c.REPORT_ID_HIDPP_SHORT) :
    hidpp_raw_event c dev data size =
      if (size >>> (3 : Nat)) + 1 ≠ (HIDPP_REPORT_SHORT_LENGTH : Int) then (1, dev)
      else hidpp_raw_hidpp_event c dev data size := by
  obtain ⟨_, _, h3, _, h5, h6⟩ := hd
  unfold hidpp_raw_event
  dsimp only
  rw [h0, if_neg (by
    intro h
    rcases h with h | h
    · exact h3 h.symm
    · exact h5 h.symm), if_neg (fun h => h6 h.symm), if_pos rfl]

theorem raw_event_hidpp_long (c : hidpp_consts) (dev : hidpp_device) (data : Nat → Nat)
    (size : Int) (hd : c.case_labels_distinct) (h0 : data 0 = c.REPORT_ID_HIDPP_LONG) :
    hidpp_raw_event c dev data size =
      if (size >>> (3 : Nat)) + 1 ≠ (HIDPP_REPORT_LONG_LENGTH : Int) then (1, dev)
      else hidpp_raw_hidpp_event c dev data size := by
  obtain ⟨_, h2, _, h4, _, _⟩ := hd
  unfold hidpp_raw_event
  dsimp only
  rw [h0, if_neg (by
    intro h
    rcases h with h | h
    · exact h2 h.symm
    · exact h4 h.symm), if_pos rfl]

/-- C6: an inbound frame whose first byte is the short (resp. long) HID++
report id and whose field count `(size >> 3) + 1` differs from
`HIDPP_REPORT_SHORT_LENGTH` (resp. `HIDPP_REPORT_LONG_LENGTH`) makes
`hidpp_raw_event` return 1 with the session unchanged: the result buffer and
`answer_available` are as before and the hook `raw_event` is not invoked. -/
theorem raw_event_bad_size (c : hidpp_consts) (dev : hidpp_device) (data : Nat → Nat)
    (size : Int) (hd : c.case_labels_distinct)
    (hb : (data 0 = c.REPORT_ID_HIDPP_SHORT ∧
            (size >>> (3 : Nat)) + 1 ≠ (HIDPP_REPORT_SHORT_LENGTH : Int)) ∨
          (data 0 = c.REPORT_ID_HIDPP_LONG ∧
            (size >>> (3 : Nat)) + 1 ≠ (HIDPP_REPORT_LONG_LENGTH : Int))) :
    hidpp_raw_event c dev data size = (1, dev) ∧
    (hidpp_raw_event c dev data size).1 = 1 ∧
    (hidpp_raw_event c dev data size).2.send_receive_buf = dev.send_receive_buf ∧
    (hidpp_raw_event c dev data size).2.answer_available = dev.answer_available ∧
    (hidpp_raw_event c dev data size).2.raw_event_calls = dev.raw_event_calls := by
  have h : hidpp_raw_event c dev data size = (1, dev) := by
    rcases hb with ⟨h0, hl⟩ | ⟨h0, hl⟩
    · rw [raw_event_hidpp_short c dev data size hd h0, if_pos hl]
    · rw [raw_event_hidpp_long c dev data size hd h0, if_pos hl]
  rw [h]
  exact ⟨rfl, rfl, rfl, rfl, rfl⟩

/-- Witness of C6: a short report that would answer `sample_question`, reported
with size 7, is dropped by the session that waits for it. -/
theorem raw_event_bad_size_witness :
    hidpp_h.case_labels_distinct ∧
    hidpp_raw_event hidpp_h waiting_session_hooked (frame_of [0x10, 0, 5, 0x1a, 7]) 7 =
      (1, waiting_session_hooked) :=
  ⟨by decide,
   (raw_event_bad_size hidpp_h waiting_session_hooked (frame_of [0x10, 0, 5, 0x1a, 7]) 7
      (by decide) (Or.inl ⟨rfl, by decide⟩)).1⟩

/-- C7 (as the code has it): a frame with the short (resp. long) HID++ report
id is passed on to `hidpp_raw_hidpp_event` when `(size >> 3) + 1` is 7 (resp.
20), that is when `size` is one of the eight values 48..55 (resp. 152..159),
and is dropped with result 1 for every other `size`. -/
theorem raw_event_size_window (c : hidpp_consts) (dev : hidpp_device) (data : Nat → Nat)
    (size : Int) (hd : c.case_labels_distinct) :
    (data 0 = c.REPORT_ID_HIDPP_SHORT →
      ((48 ≤ size ∧ size ≤ 55) →
        hidpp_raw_event c dev data size = hidpp_raw_hidpp_event c dev data size) ∧
      (¬ (48 ≤ size ∧ size ≤ 55) → hidpp_raw_event c dev data size = (1, dev))) ∧
    (data 0 = c.REPORT_ID_HIDPP_LONG →
      ((152 ≤ size ∧ size ≤ 159) →
        hidpp_raw_event c dev data size = hidpp_raw_hidpp_event c dev data size) ∧
      (¬ (152 ≤ size ∧ size ≤ 159) → hidpp_raw_event c dev data size = (1, dev))) := by
  constructor
  · intro h0
    rw [raw_event_hidpp_short c dev data size hd h0, shiftRight_three]
    constructor
    · intro hr
      rw [if_neg]
      simp only [HIDPP_REPORT_SHORT_LENGTH]
      omega
    · intro hr
      rw [if_pos]
      simp only [HIDPP_REPORT_SHORT_LENGTH]
      omega
  · intro h0
    rw [raw_event_hidpp_long c dev data size hd h0, shiftRight_three]
    constructor
    · intro hr
      rw [if_neg]
      simp only [HIDPP_REPORT_LONG_LENGTH]
      omega
    · intro hr
      rw [if_pos]
      simp only [HIDPP_REPORT_LONG_LENGTH]
      omega

/-- Witness of C7: the constants of the HID++ protocol have distinct report
ids; a short report of size 48 is passed on. -/
theorem raw_event_size_window_witness :
    hidpp_h.case_labels_distinct ∧
    hidpp_raw_event hidpp_h waiting_session (frame_of [0x10, 0, 5, 0x1a, 7]) 48 =
      hidpp_raw_hidpp_event hidpp_h waiting_session (frame_of [0x10, 0, 5, 0x1a, 7]) 48 :=
  ⟨by decide,
   ((raw_event_size_window hidpp_h waiting_session (frame_of [0x10, 0, 5, 0x1a, 7]) 48
      (by decide)).1 rfl).1 (by decide)⟩

/-- C7 as stated fails: a short report that answers `sample_question` is
dropped when its reported size is 7 and accepted when it is 48 or 55; a long
one is dropped at size 20 and accepted at 152. -/
theorem raw_event_size_not_exact :
    (hidpp_raw_event hidpp_h waiting_session
        (frame_of [0x10, 0, 5, 0x1a, 7]) 7).2.answer_available = false ∧
    (hidpp_raw_event hidpp_h waiting_session
        (frame_of [0x10, 0, 5, 0x1a, 7]) 48).2.answer_available = true ∧
    (hidpp_raw_event hidpp_h waiting_session
        (frame_of [0x10, 0, 5, 0x1a, 7]) 55).2.answer_available = true ∧
    (hidpp_raw_event hidpp_h waiting_session
        (frame_of [0x11, 0, 5, 0x1a, 7]) 20).2.answer_available = false ∧
    (hidpp_raw_event hidpp_h waiting_session
        (frame_of [0x11, 0, 5, 0x1a, 7]) 152).2.answer_available = true := by
  decide

/-! ### The request builders -/

theorem size_t_of_int_of_nonneg (n : Int) (h0 : 0 ≤ n) (h1 : n < 2 ^ 31) :
    size_t_of_int n = n.toNat := by
  unfold size_t_of_int
  have h : n % (2 : Int) ^ 64 = n := by
    apply Int.emod_eq_of_lt h0
    have : (2 : Int) ^ 31 < 2 ^ 64 := by norm_num
    omega
  rw [h]

theorem send_message_sync_transmits (c : hidpp_consts) (dev : hidpp_device)
    (message : hidpp_report) (inbound : List inbound_frame)
    (hs : message.report_id = c.REPORT_ID_HIDPP_SHORT ∨
      message.report_id = c.REPORT_ID_HIDPP_LONG) :
    (hidpp_send_message_sync c dev message inbound).2.hid_hw_requests =
      dev.hid_hw_requests ++ [message] ∧
    -1 ≤ (hidpp_send_message_sync c dev message inbound).1 := by
  have hs2 : ¬ (message.report_id ≠ c.REPORT_ID_HIDPP_SHORT ∧
      message.report_id ≠ c.REPORT_ID_HIDPP_LONG) := by
    rcases hs with h | h <;> simp [h]
  rw [send_message_sync_sendable c dev message inbound hs2]
  dsimp only
  refine ⟨(deliver_keeps c inbound _).2, ?_⟩
  split_ifs <;> omega

/-- C8 (as the code has it): both request builders compare `param_count` with
the parameter capacity of the shared report structure, 16 bytes, whatever the
report kind. A `param_count` above 16 makes either builder return `-EINVAL`
with the session untouched, so nothing is transmitted. A short register-access
request with `param_count` between 0 and 16 is not rejected: it is transmitted
and the result is not `-EINVAL`. -/
theorem command_sync_param_count_guard (c : hidpp_consts) (dev : hidpp_device)
    (feat_index funcindex_clientid report_id sub_id reg_address : Nat)
    (params : List Nat) (param_count : Int) (inbound : List inbound_frame)
    (hint : param_count < 2 ^ 31) :
    ((PARAMS_SIZE : Int) < param_count →
      hidpp_send_fap_command_sync c dev feat_index funcindex_clientid params param_count
        inbound = (-EINVAL, dev) ∧
      hidpp_send_rap_command_sync c dev report_id sub_id reg_address params param_count
        inbound = (-EINVAL, dev)) ∧
    (0 ≤ param_count → param_count ≤ (PARAMS_SIZE : Int) →
      (hidpp_send_rap_command_sync c dev c.REPORT_ID_HIDPP_SHORT sub_id reg_address params
        param_count inbound).1 ≠ -EINVAL ∧
      (hidpp_send_rap_command_sync c dev c.REPORT_ID_HIDPP_SHORT sub_id reg_address params
        param_count inbound).2.hid_hw_requests =
        dev.hid_hw_requests ++
          [rap_message c.REPORT_ID_HIDPP_SHORT sub_id reg_address params param_count]) := by
  constructor
  · intro hp
    have hp2 : (16 : Int) < param_count := by simpa [PARAMS_SIZE, HIDPP_REPORT_LONG_LENGTH] using hp
    have hsz : size_t_of_int param_count > PARAMS_SIZE := by
      rw [size_t_of_int_of_nonneg param_count (by omega) hint]
      simp only [PARAMS_SIZE, HIDPP_REPORT_LONG_LENGTH]
      omega
    unfold hidpp_send_fap_command_sync hidpp_send_rap_command_sync
    rw [if_pos hsz]
    refine ⟨rfl, ?_⟩
    split
    · rfl
    · rfl
  · intro h0 hp
    have hp2 : param_count ≤ 16 := by simpa [PARAMS_SIZE, HIDPP_REPORT_LONG_LENGTH] using hp
    have hsz : ¬ size_t_of_int param_count > PARAMS_SIZE := by
      rw [size_t_of_int_of_nonneg param_count h0 hint]
      simp only [PARAMS_SIZE, HIDPP_REPORT_LONG_LENGTH]
      omega
    unfold hidpp_send_rap_command_sync
    rw [if_neg (fun h => h.1 rfl), if_neg hsz]
    have h := send_message_sync_transmits c dev
      (rap_message c.REPORT_ID_HIDPP_SHORT sub_id reg_address params param_count) inbound
      (Or.inl rfl)
    refine ⟨?_, h.1⟩
    have h2 := h.2
    simp only [EINVAL]
    omega

/-- Witness of C8: `param_count` 17 is rejected by both builders, `param_count`
4 is accepted for a short register-access request. -/
theorem command_sync_param_count_guard_witness :
    ((17 : Int) < 2 ^ 31 ∧ (PARAMS_SIZE : Int) < 17 ∧
      hidpp_send_fap_command_sync hidpp_h idle_session 5 0x1a [] 17 [] =
        (-EINVAL, idle_session) ∧
      hidpp_send_rap_command_sync hidpp_h idle_session 0x10 0x80 0 [] 17 [] =
        (-EINVAL, idle_session)) ∧
    ((4 : Int) < 2 ^ 31 ∧ (0 : Int) ≤ 4 ∧ (4 : Int) ≤ (PARAMS_SIZE : Int) ∧
      (hidpp_send_rap_command_sync hidpp_h idle_session hidpp_h.REPORT_ID_HIDPP_SHORT 0x80 0
        [1, 2, 3, 4] 4 []).1 ≠ -EINVAL) :=
  ⟨⟨by decide, by decide,
    (command_sync_param_count_guard hidpp_h idle_session 5 0x1a 0x10 0x80 0 [] 17 []
      (by decide)).1 (by decide)⟩,
   ⟨by decide, by decide, by decide,
    ((command_sync_param_count_guard hidpp_h idle_session 5 0x1a 0x10 0x80 0 [1, 2, 3, 4] 4 []
      (by decide)).2 (by decide) (by decide)).1⟩⟩

/-- C8 as stated fails: a short register-access request with 4 parameter bytes,
one more than the 3 a short frame holds, is not rejected: the request is
transmitted and, nothing arriving, the call times out with -1. -/
theorem rap_command_sync_short_over_capacity :
    (HIDPP_REPORT_SHORT_LENGTH : Int) - 4 < 4 ∧
    (hidpp_send_rap_command_sync hidpp_h idle_session hidpp_h.REPORT_ID_HIDPP_SHORT 0x80 0
        [1, 2, 3, 4] 4 []).1 = -1 ∧
    (hidpp_send_rap_command_sync hidpp_h idle_session hidpp_h.REPORT_ID_HIDPP_SHORT 0x80 0
        [1, 2, 3, 4] 4 []).1 ≠ -EINVAL ∧
    idle_session.hid_hw_requests.length = 0 ∧
    (hidpp_send_rap_command_sync hidpp_h idle_session hidpp_h.REPORT_ID_HIDPP_SHORT 0x80 0
        [1, 2, 3, 4] 4 []).2.hid_hw_requests.length = 1 ∧
    ((hidpp_send_rap_command_sync hidpp_h idle_session hidpp_h.REPORT_ID_HIDPP_SHORT 0x80 0
        [1, 2, 3, 4] 4 []).2.hid_hw_requests.map
          (fun m => m.fap.params ⟨3, by decide⟩)) = [4] := by
  decide

theorem memcpy_params_zero_spec (params : List Nat) (param_count : Int)
    (h0 : 0 ≤ param_count) (hint : param_count < 2 ^ 31)
    (hl : (params.length : Int) = param_count) (i : Fin PARAMS_SIZE) :
    ((i.val : Int) < param_count →
      params[i.val]? =
        some (memcpy_params (fun _ => 0) params (size_t_of_int param_count) i)) ∧
    (param_count ≤ (i.val : Int) →
      memcpy_params (fun _ => 0) params (size_t_of_int param_count) i = 0) := by
  rw [size_t_of_int_of_nonneg param_count h0 hint]
  unfold memcpy_params
  constructor
  · intro hi
    have h1 : i.val < param_count.toNat := by omega
    have h2 : i.val < params.length := by omega
    rw [if_pos h1, List.getD_eq_getElem?_getD, List.getElem?_eq_getElem h2]
    rfl
  · intro hi
    have h1 : ¬ i.val < param_count.toNat := by omega
    rw [if_neg h1]

theorem fap_command_sync_transmits (c : hidpp_consts) (dev : hidpp_device)
    (feat_index funcindex_clientid : Nat) (params : List Nat) (param_count : Int)
    (inbound : List inbound_frame) (h0 : 0 ≤ param_count)
    (hcap : param_count ≤ (PARAMS_SIZE : Int)) :
    hidpp_send_fap_command_sync c dev feat_index funcindex_clientid params param_count
        inbound =
      hidpp_send_message_sync c dev
        (fap_message c feat_index funcindex_clientid params param_count) inbound ∧
    (hidpp_send_fap_command_sync c dev feat_index funcindex_clientid params param_count
        inbound).2.hid_hw_requests =
      dev.hid_hw_requests ++
        [fap_message c feat_index funcindex_clientid params param_count] := by
  have hcap2 : param_count ≤ 16 := by
    simpa [PARAMS_SIZE, HIDPP_REPORT_LONG_LENGTH] using hcap
  have hint : param_count < 2 ^ 31 := by
    have : (16 : Int) < 2 ^ 31 := by norm_num
    omega
  have hsz : ¬ size_t_of_int param_count > PARAMS_SIZE := by
    rw [size_t_of_int_of_nonneg param_count h0 hint]
    simp only [PARAMS_SIZE, HIDPP_REPORT_LONG_LENGTH]
    omega
  unfold hidpp_send_fap_command_sync
  rw [if_neg hsz]
  exact ⟨rfl, (send_message_sync_transmits c dev _ inbound (Or.inr rfl)).1⟩

/-- C9: for `param_count` between 0 and the capacity 16 and a parameter list of
that length, the message `hidpp_send_fap_command_sync` transmits has the long
report id, device index 0, the given feature index and function byte,
`params[i]` equal to the i-th input byte for `i < param_count` and 0 beyond;
the message `hidpp_send_rap_command_sync` transmits for a short or long report
id has that report id, device index 0, the given `sub_id` and `reg_address`
and the same parameter bytes. -/
theorem command_sync_message_round_trip (c : hidpp_consts) (dev : hidpp_device)
    (feat_index funcindex_clientid report_id sub_id reg_address : Nat)
    (params : List Nat) (param_count : Int) (inbound : List inbound_frame)
    (h0 : 0 ≤ param_count) (hcap : param_count ≤ (PARAMS_SIZE : Int))
    (hl : (params.length : Int) = param_count)
    (hid : report_id = c.REPORT_ID_HIDPP_SHORT ∨ report_id = c.REPORT_ID_HIDPP_LONG) :
    (∃ msg : hidpp_report,
      (hidpp_send_fap_command_sync c dev feat_index funcindex_clientid params param_count
        inbound).2.hid_hw_requests = dev.hid_hw_requests ++ [msg] ∧
      msg.report_id = c.REPORT_ID_HIDPP_LONG ∧
      msg.device_index = 0 ∧
      msg.fap.feature_index = feat_index ∧
      msg.fap.funcindex_clientid = funcindex_clientid ∧
      (∀ i : Fin PARAMS_SIZE, (i.val : Int) < param_count →
        params[i.val]? = some (msg.fap.params i)) ∧
      (∀ i : Fin PARAMS_SIZE, param_count ≤ (i.val : Int) → msg.fap.params i = 0)) ∧
    (∃ msg : hidpp_report,
      (hidpp_send_rap_command_sync c dev report_id sub_id reg_address params param_count
        inbound).2.hid_hw_requests = dev.hid_hw_requests ++ [msg] ∧
      msg.report_id = report_id ∧
      msg.device_index = 0 ∧
      msg.rap_sub_id = sub_id ∧
      msg.rap_reg_address = reg_address ∧
      (∀ i : Fin PARAMS_SIZE, (i.val : Int) < param_count →
        params[i.val]? = some (msg.rap_params i)) ∧
      (∀ i : Fin PARAMS_SIZE, param_count ≤ (i.val : Int) → msg.rap_params i = 0)) := by
  have hcap2 : param_count ≤ 16 := by
    simpa [PARAMS_SIZE, HIDPP_REPORT_LONG_LENGTH] using hcap
  have hint : param_count < 2 ^ 31 := by
    have : (16 : Int) < 2 ^ 31 := by norm_num
    omega
  have hsz : ¬ size_t_of_int param_count > PARAMS_SIZE := by
    rw [size_t_of_int_of_nonneg param_count h0 hint]
    simp only [PARAMS_SIZE, HIDPP_REPORT_LONG_LENGTH]
    omega
  constructor
  · refine ⟨fap_message c feat_index funcindex_clientid params param_count, ?_, rfl, rfl,
      rfl, rfl, ?_, ?_⟩
    · exact (fap_command_sync_transmits c dev feat_index funcindex_clientid params
        param_count inbound h0 hcap).2
    · intro i hi
      exact (memcpy_params_zero_spec params param_count h0 hint hl i).1 hi
    · intro i hi
      exact (memcpy_params_zero_spec params param_count h0 hint hl i).2 hi
  · refine ⟨rap_message report_id sub_id reg_address params param_count, ?_, rfl, rfl,
      rfl, rfl, ?_, ?_⟩
    · unfold hidpp_send_rap_command_sync
      rw [if_neg (by
        intro h
        rcases hid with h1 | h1
        · exact h.1 h1
        · exact h.2 h1), if_neg hsz]
      exact (send_message_sync_transmits c dev _ inbound hid).1
    · intro i hi
      exact (memcpy_params_zero_spec params param_count h0 hint hl i).1 hi
    · intro i hi
      exact (memcpy_params_zero_spec params param_count h0 hint hl i).2 hi

/-- Witness of C9: a feature-access request with the two parameter bytes 0x61
and 0x00; the transmitted message carries them in `params[0]` and `params[1]`
and 0 in `params[2]`. -/
theorem command_sync_message_round_trip_witness :
    (0 : Int) ≤ 2 ∧ (2 : Int) ≤ (PARAMS_SIZE : Int) ∧
    (([0x61, 0x00] : List Nat).length : Int) = 2 ∧
    (0x10 = hidpp_h.REPORT_ID_HIDPP_SHORT ∨ 0x10 = hidpp_h.REPORT_ID_HIDPP_LONG) ∧
    (∃ msg : hidpp_report,
      (hidpp_send_fap_command_sync hidpp_h idle_session 0 0x01 [0x61, 0x00] 2
        []).2.hid_hw_requests = idle_session.hid_hw_requests ++ [msg] ∧
      msg.report_id = hidpp_h.REPORT_ID_HIDPP_LONG ∧
      msg.device_index = 0 ∧
      msg.fap.feature_index = 0 ∧
      msg.fap.funcindex_clientid = 0x01 ∧
      (∀ i : Fin PARAMS_SIZE, (i.val : Int) < 2 →
        ([0x61, 0x00] : List Nat)[i.val]? = some (msg.fap.params i)) ∧
      (∀ i : Fin PARAMS_SIZE, (2 : Int) ≤ (i.val : Int) → msg.fap.params i = 0)) :=
  ⟨by decide, by decide, by decide, Or.inl rfl,
   (command_sync_message_round_trip hidpp_h idle_session 0 0x01 0x10 0x80 0 [0x61, 0x00] 2 []
      (by decide) (by decide) (by decide) (Or.inl rfl)).1⟩

/-! ### The protocol version query -/

/-- C10: `hidpp_root_get_protocol_version` runs the transaction of
`hidpp_send_fap_command_sync` for feature index 0, function byte
`CMD_ROOT_GET_PROTOCOL_VERSION` and no parameter: the long request with these
two bytes and all parameter bytes 0 is transmitted. When that transaction
returns 1 the result is 0 with version (1, 0); when it returns 0 the result is
0 with version (`params[0]`, `params[1]`) of the response; for any other
transaction result `r` the result is `-r`, which is not 0, and both outputs
keep the value they had. -/
theorem root_get_protocol_version_spec (c : hidpp_consts) (dev : hidpp_device)
    (protocol_major protocol_minor : Nat) (inbound : List inbound_frame) :
    (hidpp_send_fap_command_sync c dev 0 c.CMD_ROOT_GET_PROTOCOL_VERSION [] 0 inbound).2 =
      (hidpp_root_get_protocol_version c dev protocol_major protocol_minor inbound).dev ∧
    (∃ msg : hidpp_report,
      (hidpp_root_get_protocol_version c dev protocol_major protocol_minor
        inbound).dev.hid_hw_requests = dev.hid_hw_requests ++ [msg] ∧
      msg.report_id = c.REPORT_ID_HIDPP_LONG ∧
      msg.device_index = 0 ∧
      msg.fap.feature_index = 0 ∧
      msg.fap.funcindex_clientid = c.CMD_ROOT_GET_PROTOCOL_VERSION ∧
      ∀ i : Fin PARAMS_SIZE, msg.fap.params i = 0) ∧
    ((hidpp_send_fap_command_sync c dev 0 c.CMD_ROOT_GET_PROTOCOL_VERSION [] 0 inbound).1 = 1 →
      (hidpp_root_get_protocol_version c dev protocol_major protocol_minor inbound).ret = 0 ∧
      (hidpp_root_get_protocol_version c dev protocol_major protocol_minor
        inbound).protocol_major = 1 ∧
      (hidpp_root_get_protocol_version c dev protocol_major protocol_minor
        inbound).protocol_minor = 0) ∧
    ((hidpp_send_fap_command_sync c dev 0 c.CMD_ROOT_GET_PROTOCOL_VERSION [] 0 inbound).1 = 0 →
      (hidpp_root_get_protocol_version c dev protocol_major protocol_minor inbound).ret = 0 ∧
      (hidpp_root_get_protocol_version c dev protocol_major protocol_minor
        inbound).protocol_major =
        (hidpp_send_fap_command_sync c dev 0 c.CMD_ROOT_GET_PROTOCOL_VERSION [] 0
          inbound).2.send_receive_buf.fap.params ⟨0, by decide⟩ ∧
      (hidpp_root_get_protocol_version c dev protocol_major protocol_minor
        inbound).protocol_minor =
        (hidpp_send_fap_command_sync c dev 0 c.CMD_ROOT_GET_PROTOCOL_VERSION [] 0
          inbound).2.send_receive_buf.fap.params ⟨1, by decide⟩) ∧
    ((hidpp_send_fap_command_sync c dev 0 c.CMD_ROOT_GET_PROTOCOL_VERSION [] 0 inbound).1 ≠ 1 →
      (hidpp_send_fap_command_sync c dev 0 c.CMD_ROOT_GET_PROTOCOL_VERSION [] 0 inbound).1 ≠ 0 →
      (hidpp_root_get_protocol_version c dev protocol_major protocol_minor inbound).ret =
        -(hidpp_send_fap_command_sync c dev 0 c.CMD_ROOT_GET_PROTOCOL_VERSION [] 0
          inbound).1 ∧
      (hidpp_root_get_protocol_version c dev protocol_major protocol_minor inbound).ret ≠ 0 ∧
      (hidpp_root_get_protocol_version c dev protocol_major protocol_minor
        inbound).protocol_major = protocol_major ∧
      (hidpp_root_get_protocol_version c dev protocol_major protocol_minor
        inbound).protocol_minor = protocol_minor) := by
  have hdev : (hidpp_send_fap_command_sync c dev 0 c.CMD_ROOT_GET_PROTOCOL_VERSION [] 0
      inbound).2 =
      (hidpp_root_get_protocol_version c dev protocol_major protocol_minor inbound).dev := by
    unfold hidpp_root_get_protocol_version
    simp only [HIDPP_PAGE_ROOT]
    split_ifs <;> rfl
  refine ⟨hdev, ?_, ?_, ?_, ?_⟩
  · rw [← hdev]
    refine ⟨fap_message c 0 c.CMD_ROOT_GET_PROTOCOL_VERSION [] 0,
      (fap_command_sync_transmits c dev 0 c.CMD_ROOT_GET_PROTOCOL_VERSION [] 0 inbound
        (le_refl 0) (by decide)).2, rfl, rfl, rfl, rfl, ?_⟩
    intro i
    exact (memcpy_params_zero_spec [] 0 (le_refl 0) (by decide) rfl i).2 (by omega)
  · intro h
    unfold hidpp_root_get_protocol_version
    simp only [HIDPP_PAGE_ROOT]
    rw [if_pos h]
    exact ⟨rfl, rfl, rfl⟩
  · intro h
    unfold hidpp_root_get_protocol_version
    simp only [HIDPP_PAGE_ROOT]
    rw [if_neg (by rw [h]; decide), if_neg (by simp [h])]
    exact ⟨h, rfl, rfl⟩
  · intro h1 h0
    unfold hidpp_root_get_protocol_version
    simp only [HIDPP_PAGE_ROOT]
    rw [if_neg h1, if_pos h0]
    exact ⟨rfl, by simpa using h0, rfl, rfl⟩

/-- Witness of C10 with the protocol constants. A long answer that echoes the
request gives version (4, 5). When nothing arrives the transaction returns -1,
the result is 1 and the outputs keep 7 and 9. When a short error report that
echoes the request is followed, before the caller resumes, by a short error
report whose `params[0]` is 1, the transaction returns 1 and the version is
(1, 0). -/
theorem root_get_protocol_version_spec_witness :
    ((hidpp_send_fap_command_sync hidpp_h idle_session 0
        hidpp_h.CMD_ROOT_GET_PROTOCOL_VERSION [] 0
        [⟨frame_of [0x11, 0, 0, 0x11, 4, 5], 152⟩]).1 = 0 ∧
      (hidpp_root_get_protocol_version hidpp_h idle_session 7 9
        [⟨frame_of [0x11, 0, 0, 0x11, 4, 5], 152⟩]).ret = 0 ∧
      (hidpp_root_get_protocol_version hidpp_h idle_session 7 9
        [⟨frame_of [0x11, 0, 0, 0x11, 4, 5], 152⟩]).protocol_major = 4 ∧
      (hidpp_root_get_protocol_version hidpp_h idle_session 7 9
        [⟨frame_of [0x11, 0, 0, 0x11, 4, 5], 152⟩]).protocol_minor = 5) ∧
    ((hidpp_send_fap_command_sync hidpp_h idle_session 0
        hidpp_h.CMD_ROOT_GET_PROTOCOL_VERSION [] 0 []).1 = -1 ∧
      (hidpp_root_get_protocol_version hidpp_h idle_session 7 9 []).ret = 1 ∧
      (hidpp_root_get_protocol_version hidpp_h idle_session 7 9 []).protocol_major = 7 ∧
      (hidpp_root_get_protocol_version hidpp_h idle_session 7 9 []).protocol_minor = 9) ∧
    ((hidpp_send_fap_command_sync hidpp_h idle_session 0
        hidpp_h.CMD_ROOT_GET_PROTOCOL_VERSION [] 0
        [⟨frame_of [0x10, 0, 0x8f, 0, 0x11, 1], 48⟩,
         ⟨frame_of [0x10, 0, 0x8f, 0, 1], 48⟩]).1 = 1 ∧
      (hidpp_root_get_protocol_version hidpp_h idle_session 7 9
        [⟨frame_of [0x10, 0, 0x8f, 0, 0x11, 1], 48⟩,
         ⟨frame_of [0x10, 0, 0x8f, 0, 1], 48⟩]).ret = 0 ∧
      (hidpp_root_get_protocol_version hidpp_h idle_session 7 9
        [⟨frame_of [0x10, 0, 0x8f, 0, 0x11, 1], 48⟩,
         ⟨frame_of [0x10, 0, 0x8f, 0, 1], 48⟩]).protocol_major = 1 ∧
      (hidpp_root_get_protocol_version hidpp_h idle_session 7 9
        [⟨frame_of [0x10, 0, 0x8f, 0, 0x11, 1], 48⟩,
         ⟨frame_of [0x10, 0, 0x8f, 0, 1], 48⟩]).protocol_minor = 0) :=
  have h0 : (hidpp_send_fap_command_sync hidpp_h idle_session 0
        hidpp_h.CMD_ROOT_GET_PROTOCOL_VERSION [] 0
        [⟨frame_of [0x11, 0, 0, 0x11, 4, 5], 152⟩]).1 = 0 := by decide
  have ht : (hidpp_send_fap_command_sync hidpp_h idle_session 0
        hidpp_h.CMD_ROOT_GET_PROTOCOL_VERSION [] 0 []).1 = -1 := by decide
  have h1 : (hidpp_send_fap_command_sync hidpp_h idle_session 0
        hidpp_h.CMD_ROOT_GET_PROTOCOL_VERSION [] 0
        [⟨frame_of [0x10, 0, 0x8f, 0, 0x11, 1], 48⟩,
         ⟨frame_of [0x10, 0, 0x8f, 0, 1], 48⟩]).1 = 1 := by decide
  ⟨⟨h0,
    ((root_get_protocol_version_spec hidpp_h idle_session 7 9
      [⟨frame_of [0x11, 0, 0, 0x11, 4, 5], 152⟩]).2.2.2.1 h0).1,
    (((root_get_protocol_version_spec hidpp_h idle_session 7 9
      [⟨frame_of [0x11, 0, 0, 0x11, 4, 5], 152⟩]).2.2.2.1 h0).2.1).trans (by decide),
    (((root_get_protocol_version_spec hidpp_h idle_session 7 9
      [⟨frame_of [0x11, 0, 0, 0x11, 4, 5], 152⟩]).2.2.2.1 h0).2.2).trans (by decide)⟩,
   ⟨ht,
    (((root_get_protocol_version_spec hidpp_h idle_session 7 9 []).2.2.2.2
      (by rw [ht]; decide) (by rw [ht]; decide)).1).trans (by rw [ht]; decide),
    ((root_get_protocol_version_spec hidpp_h idle_session 7 9 []).2.2.2.2
      (by rw [ht]; decide) (by rw [ht]; decide)).2.2.1,
    ((root_get_protocol_version_spec hidpp_h idle_session 7 9 []).2.2.2.2
      (by rw [ht]; decide) (by rw [ht]; decide)).2.2.2⟩,
   ⟨h1,
    (root_get_protocol_version_spec hidpp_h idle_session 7 9
      [⟨frame_of [0x10, 0, 0x8f, 0, 0x11, 1], 48⟩,
       ⟨frame_of [0x10, 0, 0x8f, 0, 1], 48⟩]).2.2.1 h1⟩⟩

/-! ### The root feature lookup -/

theorem shiftLeft_eight_or (a b : Nat) (hb : b < 256) : a <<< 8 ||| b = a * 256 + b := by
  have h := Nat.mul_add_lt_is_or (show b < 2 ^ 8 by simpa using hb) a
  rw [Nat.shiftLeft_eq, Nat.mul_comm a (2 ^ 8), ← h]

theorem root_get_feature_params_eq (feature : Nat) (hf : feature < 65536) :
    root_get_feature_params feature = [feature / 256, feature % 256] := by
  unfold root_get_feature_params
  have h1 : (feature >>> 8) % 256 = feature / 256 := by
    rw [Nat.shiftRight_eq_div_pow]
    omega
  have h2 : (feature &&& 0x00FF) % 256 = feature % 256 := by
    have h := Nat.and_pow_two_sub_one_eq_mod feature 8
    have h3 : feature &&& 0x00FF = feature % 256 := by simpa using h
    rw [h3]
    omega
  rw [h1, h2]

/-- C11: for a 16-bit feature id, `hidpp_root_get_feature` transmits the long
feature-access request with feature index 0, function byte
`CMD_ROOT_GET_FEATURE`, `params[0]` the high byte and `params[1]` the low byte
of the id (so `(p0 << 8) | p1` is the id) and every other parameter byte 0.
When the transaction returns 0 the result is 0 with `feature_index` and
`feature_type` taken from `params[0]` and `params[1]` of the response; when the
transaction returns a code other than 0 the result is that code negated, which
is not 0, and both outputs keep the value they had. -/
theorem root_get_feature_spec (c : hidpp_consts) (dev : hidpp_device) (feature : Nat)
    (feature_index feature_type : Nat) (inbound : List inbound_frame)
    (hf : feature < 65536) :
    ((feature / 256) <<< 8 ||| feature % 256 = feature ∧ feature / 256 < 256 ∧
      feature % 256 < 256) ∧
    (hidpp_root_get_feature c dev feature feature_index feature_type inbound).dev =
      (hidpp_send_fap_command_sync c dev 0 c.CMD_ROOT_GET_FEATURE
        [feature / 256, feature % 256] 2 inbound).2 ∧
    (∃ msg : hidpp_report,
      (hidpp_root_get_feature c dev feature feature_index feature_type
        inbound).dev.hid_hw_requests = dev.hid_hw_requests ++ [msg] ∧
      msg.report_id = c.REPORT_ID_HIDPP_LONG ∧
      msg.device_index = 0 ∧
      msg.fap.feature_index = 0 ∧
      msg.fap.funcindex_clientid = c.CMD_ROOT_GET_FEATURE ∧
      msg.fap.params ⟨0, by decide⟩ = feature / 256 ∧
      msg.fap.params ⟨1, by decide⟩ = feature % 256 ∧
      ∀ i : Fin PARAMS_SIZE, 2 ≤ i.val → msg.fap.params i = 0) ∧
    ((hidpp_send_fap_command_sync c dev 0 c.CMD_ROOT_GET_FEATURE
        [feature / 256, feature % 256] 2 inbound).1 = 0 →
      (hidpp_root_get_feature c dev feature feature_index feature_type inbound).ret = 0 ∧
      (hidpp_root_get_feature c dev feature feature_index feature_type
        inbound).feature_index =
        (hidpp_send_fap_command_sync c dev 0 c.CMD_ROOT_GET_FEATURE
          [feature / 256, feature % 256] 2 inbound).2.send_receive_buf.fap.params
            ⟨0, by decide⟩ ∧
      (hidpp_root_get_feature c dev feature feature_index feature_type
        inbound).feature_type =
        (hidpp_send_fap_command_sync c dev 0 c.CMD_ROOT_GET_FEATURE
          [feature / 256, feature % 256] 2 inbound).2.send_receive_buf.fap.params
            ⟨1, by decide⟩) ∧
    ((hidpp_send_fap_command_sync c dev 0 c.CMD_ROOT_GET_FEATURE
        [feature / 256, feature % 256] 2 inbound).1 ≠ 0 →
      (hidpp_root_get_feature c dev feature feature_index feature_type inbound).ret =
        -(hidpp_send_fap_command_sync c dev 0 c.CMD_ROOT_GET_FEATURE
          [feature / 256, feature % 256] 2 inbound).1 ∧
      (hidpp_root_get_feature c dev feature feature_index feature_type inbound).ret ≠ 0 ∧
      (hidpp_root_get_feature c dev feature feature_index feature_type
        inbound).feature_index = feature_index ∧
      (hidpp_root_get_feature c dev feature feature_index feature_type
        inbound).feature_type = feature_type) := by
  have hp := root_get_feature_params_eq feature hf
  have hdev : (hidpp_root_get_feature c dev feature feature_index feature_type inbound).dev =
      (hidpp_send_fap_command_sync c dev 0 c.CMD_ROOT_GET_FEATURE
        [feature / 256, feature % 256] 2 inbound).2 := by
    unfold hidpp_root_get_feature
    simp only [HIDPP_PAGE_ROOT, hp]
    split_ifs <;> rfl
  refine ⟨⟨?_, by omega, by omega⟩, hdev, ?_, ?_, ?_⟩
  · rw [shiftLeft_eight_or _ _ (by omega)]
    omega
  · rw [hdev]
    have hm := memcpy_params_zero_spec [feature / 256, feature % 256] 2 (by decide)
      (by decide) rfl
    refine ⟨fap_message c 0 c.CMD_ROOT_GET_FEATURE [feature / 256, feature % 256] 2,
      (fap_command_sync_transmits c dev 0 c.CMD_ROOT_GET_FEATURE
        [feature / 256, feature % 256] 2 inbound (by decide) (by decide)).2,
      rfl, rfl, rfl, rfl, ?_, ?_, ?_⟩
    · have h := (hm ⟨0, by decide⟩).1 (by decide)
      simpa using h.symm
    · have h := (hm ⟨1, by decide⟩).1 (by decide)
      simpa using h.symm
    · intro i hi
      exact (hm i).2 (by omega)
  · intro h
    unfold hidpp_root_get_feature
    simp only [HIDPP_PAGE_ROOT, hp]
    rw [if_neg (by simp [h])]
    exact ⟨h, rfl, rfl⟩
  · intro h
    unfold hidpp_root_get_feature
    simp only [HIDPP_PAGE_ROOT, hp]
    rw [if_pos h]
    exact ⟨rfl, by simpa using h, rfl, rfl⟩

/-- Witness of C11 for the feature id 0x6100. A long answer that echoes the
request gives index 0x0d and type 0x40. A short error report that echoes the
request makes the transaction return the code `params[0]` = 1; the result is
-1 and the outputs keep 7 and 9. -/
theorem root_get_feature_spec_witness :
    (0x6100 : Nat) < 65536 ∧
    ((hidpp_send_fap_command_sync hidpp_h idle_session 0 hidpp_h.CMD_ROOT_GET_FEATURE
        [0x6100 / 256, 0x6100 % 256] 2
        [⟨frame_of [0x11, 0, 0, 0x01, 0x0d, 0x40], 152⟩]).1 = 0 ∧
      (hidpp_root_get_feature hidpp_h idle_session 0x6100 7 9
        [⟨frame_of [0x11, 0, 0, 0x01, 0x0d, 0x40], 152⟩]).ret = 0 ∧
      (hidpp_root_get_feature hidpp_h idle_session 0x6100 7 9
        [⟨frame_of [0x11, 0, 0, 0x01, 0x0d, 0x40], 152⟩]).feature_index = 0x0d ∧
      (hidpp_root_get_feature hidpp_h idle_session 0x6100 7 9
        [⟨frame_of [0x11, 0, 0, 0x01, 0x0d, 0x40], 152⟩]).feature_type = 0x40) ∧
    ((hidpp_send_fap_command_sync hidpp_h idle_session 0 hidpp_h.CMD_ROOT_GET_FEATURE
        [0x6100 / 256, 0x6100 % 256] 2
        [⟨frame_of [0x10, 0, 0x8f, 0, 0x01, 5], 48⟩]).1 = 1 ∧
      (hidpp_root_get_feature hidpp_h idle_session 0x6100 7 9
        [⟨frame_of [0x10, 0, 0x8f, 0, 0x01, 5], 48⟩]).ret = -1 ∧
      (hidpp_root_get_feature hidpp_h idle_session 0x6100 7 9
        [⟨frame_of [0x10, 0, 0x8f, 0, 0x01, 5], 48⟩]).feature_index = 7 ∧
      (hidpp_root_get_feature hidpp_h idle_session 0x6100 7 9
        [⟨frame_of [0x10, 0, 0x8f, 0, 0x01, 5], 48⟩]).feature_type = 9) :=
  have h0 : (hidpp_send_fap_command_sync hidpp_h idle_session 0 hidpp_h.CMD_ROOT_GET_FEATURE
        [0x6100 / 256, 0x6100 % 256] 2
        [⟨frame_of [0x11, 0, 0, 0x01, 0x0d, 0x40], 152⟩]).1 = 0 := by decide
  have h1 : (hidpp_send_fap_command_sync hidpp_h idle_session 0 hidpp_h.CMD_ROOT_GET_FEATURE
        [0x6100 / 256, 0x6100 % 256] 2
        [⟨frame_of [0x10, 0, 0x8f, 0, 0x01, 5], 48⟩]).1 = 1 := by decide
  ⟨by decide,
   ⟨h0,
    ((root_get_feature_spec hidpp_h idle_session 0x6100 7 9
      [⟨frame_of [0x11, 0, 0, 0x01, 0x0d, 0x40], 152⟩] (by decide)).2.2.2.1 h0).1,
    (((root_get_feature_spec hidpp_h idle_session 0x6100 7 9
      [⟨frame_of [0x11, 0, 0, 0x01, 0x0d, 0x40], 152⟩] (by decide)).2.2.2.1 h0).2.1).trans
        (by decide),
    (((root_get_feature_spec hidpp_h idle_session 0x6100 7 9
      [⟨frame_of [0x11, 0, 0, 0x01, 0x0d, 0x40], 152⟩] (by decide)).2.2.2.1 h0).2.2).trans
        (by decide)⟩,
   ⟨h1,
    (((root_get_feature_spec hidpp_h idle_session 0x6100 7 9
      [⟨frame_of [0x10, 0, 0x8f, 0, 0x01, 5], 48⟩] (by decide)).2.2.2.2
        (by rw [h1]; decide)).1).trans (by rw [h1]),
    ((root_get_feature_spec hidpp_h idle_session 0x6100 7 9
      [⟨frame_of [0x10, 0, 0x8f, 0, 0x01, 5], 48⟩] (by decide)).2.2.2.2
        (by rw [h1]; decide)).2.2.1,
    ((root_get_feature_spec hidpp_h idle_session 0x6100 7 9
      [⟨frame_of [0x10, 0, 0x8f, 0, 0x01, 5], 48⟩] (by decide)).2.2.2.2
        (by rw [h1]; decide)).2.2.2⟩⟩

/-! ### Deferred initialisation -/

theorem schedule_delayed_hidpp_init_fields (dev : hidpp_device)
    (hi : dev.initialized = false)
    (hroom : dev.delayed_work_fifo.length < dev.delayed_work_fifo_size) :
    (schedule_delayed_hidpp_init dev).delayed_work_fifo =
      dev.delayed_work_fifo ++ [HIDPP_INIT] ∧
    (schedule_delayed_hidpp_init dev).work_pending = true ∧
    (schedule_delayed_hidpp_init dev).initialized = false ∧
    (schedule_delayed_hidpp_init dev).init_retry = dev.init_retry ∧
    (schedule_delayed_hidpp_init dev).delayed_work_fifo_size = dev.delayed_work_fifo_size ∧
    (schedule_delayed_hidpp_init dev).driver_lock = dev.driver_lock ∧
    (schedule_delayed_hidpp_init dev).device_init = dev.device_init ∧
    (schedule_delayed_hidpp_init dev).init_trace = dev.init_trace := by
  unfold schedule_delayed_hidpp_init schedule_work kfifo_in
  simp only [hi, if_pos hroom]
  cases h : dev.work_pending <;> simp [h, hi]

/-- C13: when `hidpp_delayed_init` runs on an uninitialised session and the
lock probe succeeds, the lock is taken, released, and only then the routine
`device_init`, when one is installed, is called, once; the session becomes
initialised exactly when the routine returns 0, and a session with no routine
becomes initialised. In every case the lock is free afterwards and
`init_retry`, the fifo and the queued state of the work are unchanged. On a
session that is already initialised `hidpp_delayed_init` changes nothing, so it
neither probes the lock nor calls the routine. -/
theorem delayed_init_lock_free (dev : hidpp_device) :
    (dev.initialized = false → dev.driver_lock = false →
      (∀ r : Int, dev.device_init = some r →
        (hidpp_delayed_init dev).init_trace =
          dev.init_trace ++ [init_event.trylock_taken, init_event.lock_up,
            init_event.device_init_call] ∧
        ((hidpp_delayed_init dev).initialized = true ↔ r = 0)) ∧
      (dev.device_init = none →
        (hidpp_delayed_init dev).init_trace =
          dev.init_trace ++ [init_event.trylock_taken, init_event.lock_up] ∧
        (hidpp_delayed_init dev).initialized = true) ∧
      (hidpp_delayed_init dev).driver_lock = false ∧
      (hidpp_delayed_init dev).init_retry = dev.init_retry ∧
      (hidpp_delayed_init dev).delayed_work_fifo = dev.delayed_work_fifo ∧
      (hidpp_delayed_init dev).work_pending = dev.work_pending) ∧
    (dev.initialized = true → hidpp_delayed_init dev = dev) := by
  constructor
  · intro hi hl
    unfold hidpp_delayed_init
    rw [if_neg (by simp [hi]), if_neg (by simp [hl])]
    cases hd : dev.device_init with
    | none =>
      simp [hd]
    | some r =>
      simp only [hd]
      by_cases hr : r = 0
      · simp [hr]
      · simp [hr, hi]
  · intro hi
    unfold hidpp_delayed_init
    rw [if_pos hi]

/-- Witness of C13: on `ready_session` the routine returns 0 and the session
becomes initialised; on `failing_session` it returns -5 and the session stays
uninitialised; in both the routine is called after the lock was released. -/
theorem delayed_init_lock_free_witness :
    (ready_session.initialized = false ∧ ready_session.driver_lock = false ∧
      ready_session.device_init = some 0 ∧
      (hidpp_delayed_init ready_session).init_trace =
        [init_event.trylock_taken, init_event.lock_up, init_event.device_init_call] ∧
      (hidpp_delayed_init ready_session).initialized = true) ∧
    (failing_session.initialized = false ∧ failing_session.driver_lock = false ∧
      failing_session.device_init = some (-5) ∧
      (hidpp_delayed_init failing_session).init_trace =
        [init_event.trylock_taken, init_event.lock_up, init_event.device_init_call] ∧
      (hidpp_delayed_init failing_session).initialized = false) :=
  ⟨⟨rfl, rfl, rfl,
    (((delayed_init_lock_free ready_session).1 rfl rfl).1 0 rfl).1,
    (((delayed_init_lock_free ready_session).1 rfl rfl).1 0 rfl).2.2 rfl⟩,
   ⟨rfl, rfl, rfl,
    (((delayed_init_lock_free failing_session).1 rfl rfl).1 (-5) rfl).1,
    by
      have h := (((delayed_init_lock_free failing_session).1 rfl rfl).1 (-5) rfl).2
      cases hb : (hidpp_delayed_init failing_session).initialized
      · rfl
      · exact absurd (h.1 hb) (by decide)⟩⟩

theorem schedule_delayed_hidpp_init_full (dev : hidpp_device)
    (hfull : ¬ dev.delayed_work_fifo.length < dev.delayed_work_fifo_size) :
    (schedule_delayed_hidpp_init dev).delayed_work_fifo = dev.delayed_work_fifo := by
  unfold schedule_delayed_hidpp_init schedule_work kfifo_in
  rw [if_neg hfull]
  dsimp only
  split_ifs <;> rfl

/-- C14 (as the code has it): `hidpp_raw_dj_event` returns 0 in every case. It
appends an Init item to the fifo if and only if byte 0 of the report is
`REPORT_ID_DJ_SHORT`, byte 2 (the report type) is the connection-status
notification, the status parameter, byte 3 + `CONNECTION_STATUS_PARAM_STATUS`,
is not `STATUS_LINKLOSS`, the session is not initialised, and the fifo has
room for the item. Otherwise the fifo is unchanged; a link-loss notification,
another report type or report id, or an initialised session leave the whole
session unchanged. -/
theorem raw_dj_event_schedules_init (c : hidpp_consts) (dev : hidpp_device)
    (data : Nat → Nat) :
    (hidpp_raw_dj_event c dev data).1 = 0 ∧
    ((hidpp_raw_dj_event c dev data).2.delayed_work_fifo =
        dev.delayed_work_fifo ++ [HIDPP_INIT] ↔
      (data 0 = c.REPORT_ID_DJ_SHORT ∧
        data 2 = c.REPORT_TYPE_NOTIF_CONNECTION_STATUS ∧
        data (3 + c.CONNECTION_STATUS_PARAM_STATUS) ≠ c.STATUS_LINKLOSS ∧
        dev.initialized = false ∧
        dev.delayed_work_fifo.length < dev.delayed_work_fifo_size)) ∧
    (¬ (data 0 = c.REPORT_ID_DJ_SHORT ∧
        data 2 = c.REPORT_TYPE_NOTIF_CONNECTION_STATUS ∧
        data (3 + c.CONNECTION_STATUS_PARAM_STATUS) ≠ c.STATUS_LINKLOSS ∧
        dev.initialized = false ∧
        dev.delayed_work_fifo.length < dev.delayed_work_fifo_size) →
      (hidpp_raw_dj_event c dev data).2.delayed_work_fifo = dev.delayed_work_fifo) ∧
    (¬ (data 0 = c.REPORT_ID_DJ_SHORT ∧
        data 2 = c.REPORT_TYPE_NOTIF_CONNECTION_STATUS ∧
        data (3 + c.CONNECTION_STATUS_PARAM_STATUS) ≠ c.STATUS_LINKLOSS ∧
        dev.initialized = false) →
      (hidpp_raw_dj_event c dev data).2 = dev) := by
  have hret : (hidpp_raw_dj_event c dev data).1 = 0 := by
    unfold hidpp_raw_dj_event
    dsimp only
    split_ifs <;> rfl
  have hidle : ¬ (data 0 = c.REPORT_ID_DJ_SHORT ∧
        data 2 = c.REPORT_TYPE_NOTIF_CONNECTION_STATUS ∧
        data (3 + c.CONNECTION_STATUS_PARAM_STATUS) ≠ c.STATUS_LINKLOSS ∧
        dev.initialized = false) →
      (hidpp_raw_dj_event c dev data).2 = dev := by
    intro hn
    unfold hidpp_raw_dj_event dj_report_id dj_report_type dj_report_params
    by_cases h12 : data 0 = c.REPORT_ID_DJ_SHORT ∧
        data 2 = c.REPORT_TYPE_NOTIF_CONNECTION_STATUS
    · rw [if_pos h12]
      by_cases h3 : data (3 + c.CONNECTION_STATUS_PARAM_STATUS) ≠ c.STATUS_LINKLOSS
      · simp only [if_pos h3]
        have h4 : dev.initialized = true := by
          cases hb : dev.initialized
          · exact absurd ⟨h12.1, h12.2, h3, hb⟩ hn
          · rfl
        unfold schedule_delayed_hidpp_init
        rw [if_pos h4]
      · simp only [if_neg h3]
    · rw [if_neg h12]
  have hsched : (data 0 = c.REPORT_ID_DJ_SHORT ∧
        data 2 = c.REPORT_TYPE_NOTIF_CONNECTION_STATUS ∧
        data (3 + c.CONNECTION_STATUS_PARAM_STATUS) ≠ c.STATUS_LINKLOSS ∧
        dev.initialized = false) →
      (hidpp_raw_dj_event c dev data).2 = schedule_delayed_hidpp_init dev := by
    rintro ⟨h1, h2, h3, _⟩
    unfold hidpp_raw_dj_event dj_report_id dj_report_type dj_report_params
    rw [if_pos ⟨h1, h2⟩]
    simp only [if_pos h3]
  have hkeep : ¬ (data 0 = c.REPORT_ID_DJ_SHORT ∧
        data 2 = c.REPORT_TYPE_NOTIF_CONNECTION_STATUS ∧
        data (3 + c.CONNECTION_STATUS_PARAM_STATUS) ≠ c.STATUS_LINKLOSS ∧
        dev.initialized = false ∧
        dev.delayed_work_fifo.length < dev.delayed_work_fifo_size) →
      (hidpp_raw_dj_event c dev data).2.delayed_work_fifo = dev.delayed_work_fifo := by
    intro hn
    by_cases hc : data 0 = c.REPORT_ID_DJ_SHORT ∧
        data 2 = c.REPORT_TYPE_NOTIF_CONNECTION_STATUS ∧
        data (3 + c.CONNECTION_STATUS_PARAM_STATUS) ≠ c.STATUS_LINKLOSS ∧
        dev.initialized = false
    · rw [hsched hc]
      apply schedule_delayed_hidpp_init_full
      intro hroom
      exact hn ⟨hc.1, hc.2.1, hc.2.2.1, hc.2.2.2, hroom⟩
    · rw [hidle hc]
  refine ⟨hret, ?_, hkeep, hidle⟩
  constructor
  · intro h
    by_contra hn
    rw [hkeep hn] at h
    have hlen := congrArg List.length h
    simp at hlen
  · rintro ⟨h1, h2, h3, h4, hroom⟩
    rw [hsched ⟨h1, h2, h3, h4⟩]
    exact (schedule_delayed_hidpp_init_fields dev h4 hroom).1

/-- Witness of C14: a connection notification with status byte 0 reaches the
idle session, whose fifo is empty and holds up to 32 items: one Init item is
queued. The same notification with status byte `STATUS_LINKLOSS` leaves the
session unchanged. -/
theorem raw_dj_event_schedules_init_witness :
    (connect_notification 0 = hidpp_h.REPORT_ID_DJ_SHORT ∧
      connect_notification 2 = hidpp_h.REPORT_TYPE_NOTIF_CONNECTION_STATUS ∧
      connect_notification (3 + hidpp_h.CONNECTION_STATUS_PARAM_STATUS) ≠
        hidpp_h.STATUS_LINKLOSS ∧
      idle_session.initialized = false ∧
      idle_session.delayed_work_fifo.length < idle_session.delayed_work_fifo_size) ∧
    (hidpp_raw_dj_event hidpp_h idle_session connect_notification).1 = 0 ∧
    (hidpp_raw_dj_event hidpp_h idle_session connect_notification).2.delayed_work_fifo =
      idle_session.delayed_work_fifo ++ [HIDPP_INIT] ∧
    (hidpp_raw_dj_event hidpp_h idle_session
      (frame_of [0x20, 1, 0x42, 0x01, 0x04, 0x61, 0x40])).2 = idle_session :=
  have hc : connect_notification 0 = hidpp_h.REPORT_ID_DJ_SHORT ∧
      connect_notification 2 = hidpp_h.REPORT_TYPE_NOTIF_CONNECTION_STATUS ∧
      connect_notification (3 + hidpp_h.CONNECTION_STATUS_PARAM_STATUS) ≠
        hidpp_h.STATUS_LINKLOSS ∧
      idle_session.initialized = false ∧
      idle_session.delayed_work_fifo.length < idle_session.delayed_work_fifo_size := by
    decide
  ⟨hc,
   (raw_dj_event_schedules_init hidpp_h idle_session connect_notification).1,
   (raw_dj_event_schedules_init hidpp_h idle_session connect_notification).2.1.2 hc,
   (raw_dj_event_schedules_init hidpp_h idle_session
      (frame_of [0x20, 1, 0x42, 0x01, 0x04, 0x61, 0x40])).2.2.2 (by decide)⟩

/-- C14 as stated fails: the report is a DJ short connection-status
notification whose status is not link-loss and the session is not initialised,
but the fifo is full: no Init item is enqueued, the fifo keeps its 32 items. -/
theorem raw_dj_event_full_fifo_drops :
    (connect_notification 0 = hidpp_h.REPORT_ID_DJ_SHORT ∧
      connect_notification 2 = hidpp_h.REPORT_TYPE_NOTIF_CONNECTION_STATUS ∧
      connect_notification (3 + hidpp_h.CONNECTION_STATUS_PARAM_STATUS) ≠
        hidpp_h.STATUS_LINKLOSS ∧
      full_session.initialized = false) ∧
    full_session.delayed_work_fifo.length = full_session.delayed_work_fifo_size ∧
    (hidpp_raw_dj_event hidpp_h full_session connect_notification).1 = 0 ∧
    (hidpp_raw_dj_event hidpp_h full_session connect_notification).2.delayed_work_fifo =
      full_session.delayed_work_fifo ∧
    (hidpp_raw_dj_event hidpp_h full_session
      connect_notification).2.delayed_work_fifo.length = 32 := by
  decide

/-- C15 (as the code has it): `schedule_delayed_hidpp_init` on an uninitialised
session puts an Init item in the fifo whenever the fifo has room, also when the
fifo already holds a pending Init item; what is not done twice is the queueing
of the work: `schedule_work` on a work that is queued returns 0 and changes
nothing. -/
theorem schedule_delayed_init_appends (dev : hidpp_device)
    (hi : dev.initialized = false)
    (hroom : dev.delayed_work_fifo.length < dev.delayed_work_fifo_size) :
    (schedule_delayed_hidpp_init dev).delayed_work_fifo =
      dev.delayed_work_fifo ++ [HIDPP_INIT] ∧
    (schedule_delayed_hidpp_init dev).work_pending = true ∧
    (dev.work_pending = true →
      schedule_work dev = (0, dev) ∧
      schedule_delayed_hidpp_init dev =
        { dev with delayed_work_fifo := dev.delayed_work_fifo ++ [HIDPP_INIT] }) := by
  have hf := schedule_delayed_hidpp_init_fields dev hi hroom
  refine ⟨hf.1, hf.2.1, ?_⟩
  intro hw
  constructor
  · unfold schedule_work
    rw [if_pos hw]
  · unfold schedule_delayed_hidpp_init schedule_work kfifo_in
    simp [hi, hroom, hw]

/-- Witness of C15: `busy_session` holds one pending Init item and has room. -/
theorem schedule_delayed_init_appends_witness :
    busy_session.initialized = false ∧
    busy_session.delayed_work_fifo.length < busy_session.delayed_work_fifo_size ∧
    (schedule_delayed_hidpp_init busy_session).delayed_work_fifo =
      busy_session.delayed_work_fifo ++ [HIDPP_INIT] :=
  ⟨rfl, by decide, (schedule_delayed_init_appends busy_session rfl (by decide)).1⟩

/-- C15 as stated fails: the session is uninitialised, its fifo holds one
pending Init item and the work is queued; after `schedule_delayed_hidpp_init`
the fifo holds two Init items. -/
theorem schedule_delayed_init_not_coalesced :
    busy_session.initialized = false ∧
    busy_session.delayed_work_fifo = [HIDPP_INIT] ∧
    busy_session.work_pending = true ∧
    (schedule_delayed_hidpp_init busy_session).delayed_work_fifo =
      [HIDPP_INIT, HIDPP_INIT] ∧
    (schedule_delayed_hidpp_init busy_session).delayed_work_fifo ≠
      busy_session.delayed_work_fifo := by
  decide

/-! ### The touch decoder -/

theorem and_fifteen (x : Nat) : x &&& 0x0f = x % 16 := by
  have h := Nat.and_pow_two_sub_one_eq_mod x 4
  simpa using h

theorem shiftRight_one_and_one (x : Nat) : (x >>> 1) &&& 0x01 = x / 2 % 2 := by
  rw [Nat.and_one_is_mod, Nat.shiftRight_eq_div_pow]

theorem touch_axis_eq (m l : Nat) :
    ((m <<< 2) % 256) <<< 6 ||| l = (m % 64) <<< 8 ||| l := by
  congr 1
  simp only [Nat.shiftLeft_eq]
  omega

theorem touchpad_raw_xy_event_eq (r : hidpp_report) (raw_xy : hidpp_touchpad_raw_xy) :
    hidpp_touchpad_raw_xy_event r raw_xy =
      if (dual_touch_touches r 1).id % 16 ≠ 0 then
        if ((dual_touch_touches r 0).id % 2 ≠ 0 ∧ (dual_touch_touches r 1).id % 16 = 4) ∨
           (¬ (dual_touch_touches r 0).id % 2 ≠ 0 ∧ (dual_touch_touches r 1).id % 16 ≥ 2) then
          { fingers := Function.update
              (Function.update raw_xy.fingers 0
                (hidpp_touchpad_touch_event (dual_touch_touches r 0) (raw_xy.fingers 0)))
              1 (hidpp_touchpad_touch_event (dual_touch_touches r 1) (raw_xy.fingers 1)),
            spurious_flag := (dual_touch_touches r 0).id / 2 % 2,
            end_of_frame := (dual_touch_touches r 0).id % 2,
            finger_count := (dual_touch_touches r 1).id % 16 }
        else
          { fingers := Function.update raw_xy.fingers 0
              (hidpp_touchpad_touch_event (dual_touch_touches r 0) (raw_xy.fingers 0)),
            spurious_flag := (dual_touch_touches r 0).id / 2 % 2,
            end_of_frame := (dual_touch_touches r 0).id % 2,
            finger_count := (dual_touch_touches r 1).id % 16 }
      else
        { fingers := raw_xy.fingers,
          spurious_flag := (dual_touch_touches r 0).id / 2 % 2,
          end_of_frame := (dual_touch_touches r 0).id % 2,
          finger_count := (dual_touch_touches r 1).id % 16 } := by
  unfold hidpp_touchpad_raw_xy_event
  simp only [and_fifteen, shiftRight_one_and_one, Nat.and_one_is_mod]
  split_ifs <;> simp [Nat.shiftRight_eq_div_pow]

/-- C16: `hidpp_touchpad_raw_xy_event` sets `end_of_frame` to bit 0 and
`spurious_flag` to bit 1 of the id byte of the first record and `finger_count`
to the low nibble of the id byte of the second record. The second record is
decoded into `fingers[1]` when `end_of_frame` is 1 and `finger_count` is 4, or
`end_of_frame` is 0 and `finger_count` is at least 2; in every other case
`fingers[1]` is left as it was. -/
theorem touchpad_raw_xy_event_second_finger (r : hidpp_report)
    (raw_xy : hidpp_touchpad_raw_xy) :
    (hidpp_touchpad_raw_xy_event r raw_xy).end_of_frame = (dual_touch_touches r 0).id % 2 ∧
    (hidpp_touchpad_raw_xy_event r raw_xy).spurious_flag =
      (dual_touch_touches r 0).id / 2 % 2 ∧
    (hidpp_touchpad_raw_xy_event r raw_xy).finger_count = (dual_touch_touches r 1).id % 16 ∧
    ((((hidpp_touchpad_raw_xy_event r raw_xy).end_of_frame = 1 ∧
          (hidpp_touchpad_raw_xy_event r raw_xy).finger_count = 4) ∨
        ((hidpp_touchpad_raw_xy_event r raw_xy).end_of_frame = 0 ∧
          2 ≤ (hidpp_touchpad_raw_xy_event r raw_xy).finger_count)) →
      (hidpp_touchpad_raw_xy_event r raw_xy).fingers 1 =
        hidpp_touchpad_touch_event (dual_touch_touches r 1) (raw_xy.fingers 1)) ∧
    (¬ (((hidpp_touchpad_raw_xy_event r raw_xy).end_of_frame = 1 ∧
          (hidpp_touchpad_raw_xy_event r raw_xy).finger_count = 4) ∨
        ((hidpp_touchpad_raw_xy_event r raw_xy).end_of_frame = 0 ∧
          2 ≤ (hidpp_touchpad_raw_xy_event r raw_xy).finger_count)) →
      (hidpp_touchpad_raw_xy_event r raw_xy).fingers 1 = raw_xy.fingers 1) := by
  have he : (hidpp_touchpad_raw_xy_event r raw_xy).end_of_frame =
      (dual_touch_touches r 0).id % 2 := by
    rw [touchpad_raw_xy_event_eq]
    split_ifs <;> rfl
  have hsp : (hidpp_touchpad_raw_xy_event r raw_xy).spurious_flag =
      (dual_touch_touches r 0).id / 2 % 2 := by
    rw [touchpad_raw_xy_event_eq]
    split_ifs <;> rfl
  have hc : (hidpp_touchpad_raw_xy_event r raw_xy).finger_count =
      (dual_touch_touches r 1).id % 16 := by
    rw [touchpad_raw_xy_event_eq]
    split_ifs <;> rfl
  refine ⟨he, hsp, hc, ?_, ?_⟩
  · rw [he, hc]
    intro h
    have h0 : (dual_touch_touches r 1).id % 16 ≠ 0 := by omega
    have h1 : ((dual_touch_touches r 0).id % 2 ≠ 0 ∧ (dual_touch_touches r 1).id % 16 = 4) ∨
        (¬ (dual_touch_touches r 0).id % 2 ≠ 0 ∧ (dual_touch_touches r 1).id % 16 ≥ 2) := by
      omega
    rw [touchpad_raw_xy_event_eq, if_pos h0, if_pos h1]
    simp
  · rw [he, hc]
    intro h
    have h1 : ¬ (((dual_touch_touches r 0).id % 2 ≠ 0 ∧ (dual_touch_touches r 1).id % 16 = 4) ∨
        (¬ (dual_touch_touches r 0).id % 2 ≠ 0 ∧ (dual_touch_touches r 1).id % 16 ≥ 2)) := by
      omega
    rw [touchpad_raw_xy_event_eq, if_neg h1]
    split_ifs
    · simp
    · rfl

/-- Witness of C16, the two examples of the claim. With `finger_count` 2 and
`end_of_frame` clear both records are decoded; with `finger_count` 1 and
`end_of_frame` clear the first record is decoded and `fingers[1]` stays
blank. -/
theorem touchpad_raw_xy_event_second_finger_witness :
    ((hidpp_touchpad_raw_xy_event (touch_report_with 0x10 0x22) blank_raw_xy).end_of_frame = 0 ∧
      (hidpp_touchpad_raw_xy_event (touch_report_with 0x10 0x22) blank_raw_xy).finger_count
        = 2 ∧
      (hidpp_touchpad_raw_xy_event (touch_report_with 0x10 0x22) blank_raw_xy).fingers 0 =
        hidpp_touchpad_touch_event (dual_touch_touches (touch_report_with 0x10 0x22) 0)
          blank_finger ∧
      (hidpp_touchpad_raw_xy_event (touch_report_with 0x10 0x22) blank_raw_xy).fingers 1 =
        hidpp_touchpad_touch_event (dual_touch_touches (touch_report_with 0x10 0x22) 1)
          (blank_raw_xy.fingers 1)) ∧
    ((hidpp_touchpad_raw_xy_event (touch_report_with 0x10 0x21) blank_raw_xy).end_of_frame = 0 ∧
      (hidpp_touchpad_raw_xy_event (touch_report_with 0x10 0x21) blank_raw_xy).finger_count
        = 1 ∧
      (hidpp_touchpad_raw_xy_event (touch_report_with 0x10 0x21) blank_raw_xy).fingers 0 =
        hidpp_touchpad_touch_event (dual_touch_touches (touch_report_with 0x10 0x21) 0)
          blank_finger ∧
      (hidpp_touchpad_raw_xy_event (touch_report_with 0x10 0x21) blank_raw_xy).fingers 1 =
        blank_raw_xy.fingers 1) :=
  ⟨⟨by decide, by decide, by decide,
    (touchpad_raw_xy_event_second_finger (touch_report_with 0x10 0x22) blank_raw_xy).2.2.2.1
      (by decide)⟩,
   ⟨by decide, by decide, by decide,
    (touchpad_raw_xy_event_second_finger (touch_report_with 0x10 0x21) blank_raw_xy).2.2.2.2
      (by decide)⟩⟩

/-- C17 (as the code has it): when `finger_count` is not 0,
`hidpp_touchpad_raw_xy_event` decodes the first record into `fingers[0]`,
whether or not the second record is decoded; when `finger_count` is 0 neither
finger slot is written. -/
theorem touchpad_raw_xy_event_first_finger (r : hidpp_report)
    (raw_xy : hidpp_touchpad_raw_xy) :
    ((hidpp_touchpad_raw_xy_event r raw_xy).finger_count ≠ 0 →
      (hidpp_touchpad_raw_xy_event r raw_xy).fingers 0 =
        hidpp_touchpad_touch_event (dual_touch_touches r 0) (raw_xy.fingers 0)) ∧
    ((hidpp_touchpad_raw_xy_event r raw_xy).finger_count = 0 →
      (hidpp_touchpad_raw_xy_event r raw_xy).fingers = raw_xy.fingers) := by
  have hc : (hidpp_touchpad_raw_xy_event r raw_xy).finger_count =
      (dual_touch_touches r 1).id % 16 := by
    rw [touchpad_raw_xy_event_eq]
    split_ifs <;> rfl
  rw [hc]
  constructor
  · intro h
    rw [touchpad_raw_xy_event_eq, if_pos h]
    split_ifs
    · simp [Function.update_noteq]
    · simp
  · intro h
    rw [touchpad_raw_xy_event_eq, if_neg (by simp [h])]

/-- Witness of C17: with `finger_count` 1 the first record is decoded; with
`finger_count` 0 both slots keep their content. -/
theorem touchpad_raw_xy_event_first_finger_witness :
    ((hidpp_touchpad_raw_xy_event (touch_report_with 0x10 0x21) blank_raw_xy).finger_count
        ≠ 0 ∧
      (hidpp_touchpad_raw_xy_event (touch_report_with 0x10 0x21) blank_raw_xy).fingers 0 =
        hidpp_touchpad_touch_event (dual_touch_touches (touch_report_with 0x10 0x21) 0)
          (blank_raw_xy.fingers 0)) ∧
    ((hidpp_touchpad_raw_xy_event (touch_report_with 0x10 0x20) blank_raw_xy).finger_count
        = 0 ∧
      (hidpp_touchpad_raw_xy_event (touch_report_with 0x10 0x20) blank_raw_xy).fingers =
        blank_raw_xy.fingers) :=
  ⟨⟨by decide,
    (touchpad_raw_xy_event_first_finger (touch_report_with 0x10 0x21) blank_raw_xy).1
      (by decide)⟩,
   ⟨by decide,
    (touchpad_raw_xy_event_first_finger (touch_report_with 0x10 0x20) blank_raw_xy).2
      (by decide)⟩⟩

/-- C17 as stated fails: with `finger_count` 0 the second-finger condition does
not hold and `fingers[0]` is not the decode of the first record: the record
decodes to x = 0x0123 while the slot stays blank with x = 0. -/
theorem touchpad_raw_xy_event_zero_fingers :
    (hidpp_touchpad_raw_xy_event (touch_report_with 0x10 0x20) blank_raw_xy).finger_count
      = 0 ∧
    (hidpp_touchpad_touch_event (dual_touch_touches (touch_report_with 0x10 0x20) 0)
      (blank_raw_xy.fingers 0)).x = 0x0123 ∧
    ((hidpp_touchpad_raw_xy_event (touch_report_with 0x10 0x20) blank_raw_xy).fingers 0).x
      = 0 ∧
    (hidpp_touchpad_raw_xy_event (touch_report_with 0x10 0x20) blank_raw_xy).fingers 0 ≠
      hidpp_touchpad_touch_event (dual_touch_touches (touch_report_with 0x10 0x20) 0)
        (blank_raw_xy.fingers 0) := by
  decide

/-- C18 (as the code has it): the axis values `hidpp_touchpad_touch_event`
produces are 14-bit values, 6 bits of the high coordinate byte above the 8 bits
of the low coordinate byte: `x` and `y` are below 16384. -/
theorem touch_event_axis_bound (t : touch_hidpp_report) (f : hidpp_touchpad_raw_xy_finger)
    (hx : t.x_l < 256) (hy : t.y_l < 256) :
    (hidpp_touchpad_touch_event t f).x < 16384 ∧
    (hidpp_touchpad_touch_event t f).y < 16384 := by
  have hb : ∀ m l : Nat, l < 256 → ((m <<< 2) % 256) <<< 6 ||| l < 16384 := by
    intro m l hl
    rw [touch_axis_eq, shiftLeft_eight_or _ _ hl]
    omega
  exact ⟨hb t.x_m t.x_l hx, hb t.y_m t.y_l hy⟩

/-- Witness of C18: the record with all coordinate bytes 0xff gives the largest
values, 16383. -/
theorem touch_event_axis_bound_witness :
    (0xff : Nat) < 256 ∧
    (hidpp_touchpad_touch_event
      { x_m := 0xff, x_l := 0xff, y_m := 0xff, y_l := 0xff, z := 0, area := 0, id := 0 }
      blank_finger).x < 16384 ∧
    (hidpp_touchpad_touch_event
      { x_m := 0xff, x_l := 0xff, y_m := 0xff, y_l := 0xff, z := 0, area := 0, id := 0 }
      blank_finger).y < 16384 :=
  ⟨by decide,
   touch_event_axis_bound
     { x_m := 0xff, x_l := 0xff, y_m := 0xff, y_l := 0xff, z := 0, area := 0, id := 0 }
     blank_finger (by decide) (by decide)⟩

/-- C18 as stated fails: the coordinate bytes `x_m` = 0x10, `x_l` = 0 give
`x` = 4096, and the bytes 0x3f, 0xff give `y` = 16383. -/
theorem touch_event_axis_exceeds_twelve_bits :
    (hidpp_touchpad_touch_event
      { x_m := 0x10, x_l := 0x00, y_m := 0x3f, y_l := 0xff, z := 0, area := 0, id := 0 }
      blank_finger).x = 4096 ∧
    (hidpp_touchpad_touch_event
      { x_m := 0x10, x_l := 0x00, y_m := 0x3f, y_l := 0xff, z := 0, area := 0, id := 0 }
      blank_finger).y = 16383 ∧
    ¬ ((hidpp_touchpad_touch_event
      { x_m := 0x10, x_l := 0x00, y_m := 0x3f, y_l := 0xff, z := 0, area := 0, id := 0 }
      blank_finger).x < 4096) := by
  decide

/-- C19: for every touch record `hidpp_touchpad_touch_event` yields
`contact_type` = `x_m >> 6`, `contact_status` = `y_m >> 6`,
`x` = `((x_m mod 64) << 8) | x_l`, `y` = `((y_m mod 64) << 8) | y_l`,
`finger_id` = `id >> 4`, `z` the depth byte and `area` the area byte. For byte
inputs the two contact fields are below 4, and `x_m` = 0b01000000 gives
`contact_type` 1 and `x` = `x_l`. -/
theorem touch_event_fields (t : touch_hidpp_report) (f : hidpp_touchpad_raw_xy_finger) :
    (hidpp_touchpad_touch_event t f).contact_type = t.x_m >>> 6 ∧
    (hidpp_touchpad_touch_event t f).contact_status = t.y_m >>> 6 ∧
    (hidpp_touchpad_touch_event t f).x = (t.x_m % 64) <<< 8 ||| t.x_l ∧
    (hidpp_touchpad_touch_event t f).y = (t.y_m % 64) <<< 8 ||| t.y_l ∧
    (hidpp_touchpad_touch_event t f).finger_id = t.id >>> 4 ∧
    (hidpp_touchpad_touch_event t f).z = t.z ∧
    (hidpp_touchpad_touch_event t f).area = t.area ∧
    (t.x_m < 256 → (hidpp_touchpad_touch_event t f).contact_type < 4) ∧
    (t.y_m < 256 → (hidpp_touchpad_touch_event t f).contact_status < 4) ∧
    (t.x_m = 0b01000000 →
      (hidpp_touchpad_touch_event t f).contact_type = 1 ∧
      (hidpp_touchpad_touch_event t f).x = t.x_l) := by
  have hx : (hidpp_touchpad_touch_event t f).x = (t.x_m % 64) <<< 8 ||| t.x_l :=
    touch_axis_eq t.x_m t.x_l
  have hy : (hidpp_touchpad_touch_event t f).y = (t.y_m % 64) <<< 8 ||| t.y_l :=
    touch_axis_eq t.y_m t.y_l
  refine ⟨rfl, rfl, hx, hy, rfl, rfl, rfl, ?_, ?_, ?_⟩
  · intro h
    show t.x_m >>> 6 < 4
    rw [Nat.shiftRight_eq_div_pow]
    omega
  · intro h
    show t.y_m >>> 6 < 4
    rw [Nat.shiftRight_eq_div_pow]
    omega
  · intro h
    refine ⟨?_, ?_⟩
    · show t.x_m >>> 6 = 1
      rw [h]
      rfl
    · rw [hx, h]
      simp

/-- Witness of C19: the first record of `touch_report_with`, whose `x_m` is
0x41: contact type 1 and `x` = 0x0123. -/
theorem touch_event_fields_witness :
    (hidpp_touchpad_touch_event
      { x_m := 0x41, x_l := 0x23, y_m := 0x02, y_l := 0x10, z := 0x30, area := 0x05,
        id := 0x10 } blank_finger) =
      { contact_type := 1, contact_status := 0, x := 0x0123, y := 0x0210, z := 0x30,
        area := 0x05, finger_id := 1 } ∧
    (hidpp_touchpad_touch_event
      { x_m := 0b01000000, x_l := 0x23, y_m := 0x02, y_l := 0x10, z := 0x30, area := 0x05,
        id := 0x10 } blank_finger).contact_type = 1 ∧
    (hidpp_touchpad_touch_event
      { x_m := 0b01000000, x_l := 0x23, y_m := 0x02, y_l := 0x10, z := 0x30, area := 0x05,
        id := 0x10 } blank_finger).x = 0x23 :=
  ⟨by decide,
   (touch_event_fields
      { x_m := 0b01000000, x_l := 0x23, y_m := 0x02, y_l := 0x10, z := 0x30, area := 0x05,
        id := 0x10 } blank_finger).2.2.2.2.2.2.2.2.2 rfl⟩

/-! ### Late answers -/

theorem send_message_sync_unlocks (c : hidpp_consts) (dev : hidpp_device)
    (message : hidpp_report) (inbound : List inbound_frame) :
    (hidpp_send_message_sync c dev message inbound).2.send_mutex = false ∧
    ((hidpp_send_message_sync c dev message inbound).2.answer_available = false →
      (hidpp_send_message_sync c dev message inbound).2.send_receive_buf =
        hidpp_report.zero) := by
  by_cases hs : message.report_id ≠ c.REPORT_ID_HIDPP_SHORT ∧
      message.report_id ≠ c.REPORT_ID_HIDPP_LONG
  · rw [send_message_sync_unsendable c dev message inbound hs]
    exact ⟨rfl, fun _ => rfl⟩
  · rw [send_message_sync_sendable c dev message inbound hs]
    refine ⟨rfl, ?_⟩
    intro hn
    dsimp only at hn ⊢
    rw [if_pos hn]

theorem raw_hidpp_event_idle_keeps (c : hidpp_consts) (dev : hidpp_device)
    (data : Nat → Nat) (size : Int) (hm : dev.send_mutex = false) :
    (hidpp_raw_hidpp_event c dev data size).2.send_receive_buf = dev.send_receive_buf ∧
    (hidpp_raw_hidpp_event c dev data size).2.answer_available = dev.answer_available := by
  rw [raw_hidpp_event_of_not_correct c dev data size (by simp [hm])]
  exact ⟨(forward_raw_event_keeps dev data size).2.2.1,
    (forward_raw_event_keeps dev data size).2.2.2⟩

theorem raw_event_idle_keeps (c : hidpp_consts) (dev : hidpp_device)
    (data : Nat → Nat) (size : Int) (hm : dev.send_mutex = false) :
    (hidpp_raw_event c dev data size).2.send_receive_buf = dev.send_receive_buf ∧
    (hidpp_raw_event c dev data size).2.answer_available = dev.answer_available := by
  unfold hidpp_raw_event
  dsimp only
  split_ifs
  · exact ⟨(raw_dj_event_keeps c dev data).2.2.1, (raw_dj_event_keeps c dev data).2.2.2⟩
  · exact ⟨rfl, rfl⟩
  · exact raw_hidpp_event_idle_keeps c dev data size hm
  · exact ⟨rfl, rfl⟩
  · exact raw_hidpp_event_idle_keeps c dev data size hm
  · exact ⟨(forward_raw_event_keeps dev data size).2.2.1,
      (forward_raw_event_keeps dev data size).2.2.2⟩

theorem deliver_idle_keeps (c : hidpp_consts) (late : List inbound_frame) :
    ∀ dev : hidpp_device, dev.send_mutex = false →
      (deliver c dev late).send_receive_buf = dev.send_receive_buf ∧
      (deliver c dev late).answer_available = dev.answer_available := by
  induction late with
  | nil => intro dev _; exact ⟨rfl, rfl⟩
  | cons f rest ih =>
    intro dev hm
    have h1 := raw_event_idle_keeps c dev f.data f.size hm
    have h2 := ih (hidpp_raw_event c dev f.data f.size).2
      ((raw_event_keeps c dev f.data f.size).1.trans hm)
    simp only [deliver]
    exact ⟨h2.1.trans h1.1, h2.2.trans h1.2⟩

/-- C20: once `hidpp_send_message_sync` has returned the mutex is free, and
from then on no inbound report changes the caller's result buffer or
`answer_available`: not through `hidpp_raw_hidpp_event`, whatever the report,
one that matches the finished request included, and not through any sequence
of frames delivered to `hidpp_raw_event`. When the call returned without an
answer the buffer is all zero and stays all zero. -/
theorem late_answer_no_effect (c : hidpp_consts) (dev : hidpp_device)
    (message : hidpp_report) (inbound : List inbound_frame) :
    (hidpp_send_message_sync c dev message inbound).2.send_mutex = false ∧
    (∀ (data : Nat → Nat) (size : Int),
      (hidpp_raw_hidpp_event c (hidpp_send_message_sync c dev message inbound).2
          data size).2.send_receive_buf =
        (hidpp_send_message_sync c dev message inbound).2.send_receive_buf ∧
      (hidpp_raw_hidpp_event c (hidpp_send_message_sync c dev message inbound).2
          data size).2.answer_available =
        (hidpp_send_message_sync c dev message inbound).2.answer_available) ∧
    (∀ late : List inbound_frame,
      (deliver c (hidpp_send_message_sync c dev message inbound).2 late).send_receive_buf =
        (hidpp_send_message_sync c dev message inbound).2.send_receive_buf ∧
      (deliver c (hidpp_send_message_sync c dev message inbound).2 late).answer_available =
        (hidpp_send_message_sync c dev message inbound).2.answer_available) ∧
    ((hidpp_send_message_sync c dev message inbound).2.answer_available = false →
      (hidpp_send_message_sync c dev message inbound).2.send_receive_buf =
        hidpp_report.zero ∧
      ∀ late : List inbound_frame,
        (deliver c (hidpp_send_message_sync c dev message inbound).2 late).send_receive_buf =
          hidpp_report.zero ∧
        (deliver c (hidpp_send_message_sync c dev message inbound).2 late).answer_available =
          false) := by
  have hu := send_message_sync_unlocks c dev message inbound
  refine ⟨hu.1, ?_, ?_, ?_⟩
  · intro data size
    exact raw_hidpp_event_idle_keeps c _ data size hu.1
  · intro late
    exact deliver_idle_keeps c late _ hu.1
  · intro hn
    refine ⟨hu.2 hn, ?_⟩
    intro late
    have h := deliver_idle_keeps c late _ hu.1
    exact ⟨h.1.trans (hu.2 hn), h.2.trans hn⟩

/-- Witness of C20: `sample_question` is sent and nothing arrives, so the call
times out; the answer that would have matched arrives afterwards and the
buffer stays all zero and `answer_available` stays false. -/
theorem late_answer_no_effect_witness :
    (hidpp_send_message_sync hidpp_h idle_session sample_question []).2.answer_available =
      false ∧
    (hidpp_send_message_sync hidpp_h idle_session sample_question []).1 = -1 ∧
    correct_answer hidpp_h (hidpp_report.at_data (frame_of [0x11, 0, 5, 0x1a, 7]))
      sample_question ∧
    (deliver hidpp_h (hidpp_send_message_sync hidpp_h idle_session sample_question []).2
        [⟨frame_of [0x11, 0, 5, 0x1a, 7], 152⟩]).send_receive_buf = hidpp_report.zero ∧
    (deliver hidpp_h (hidpp_send_message_sync hidpp_h idle_session sample_question []).2
        [⟨frame_of [0x11, 0, 5, 0x1a, 7], 152⟩]).answer_available = false :=
  have hn : (hidpp_send_message_sync hidpp_h idle_session sample_question
      []).2.answer_available = false := by decide
  ⟨hn, by decide, by decide,
   ((late_answer_no_effect hidpp_h idle_session sample_question []).2.2.2 hn).2
     [⟨frame_of [0x11, 0, 5, 0x1a, 7], 152⟩]⟩

/-! ### The legacy error answer and the protocol version query -/

end Hidpp
